import Mathlib

/-!
Verification of the OAuth 2.1 bridging core of the freee ChatGPT Apps SDK
proxy.  The definitions below are a shallow embedding of the TypeScript
source: pure functions become Lean functions, the SQLite tables become
lists of rows, request handlers become functions from request data and
store state to a result and the updated store state.  External effects
(the upstream freee token endpoint, JWT signing, random generation) are
passed in as explicit parameters, since the source treats them as uninterpreted
values whose content never influences control flow beyond success or
failure.
-/

/-- JavaScript falsiness of an optional string (`undefined`, `null` and the
empty string are falsy). -/
def jsFalsy : Option String → Bool
  | none => true
  | some s => s == ""

/-- JavaScript truthiness of an optional string. -/
def jsTruthy (x : Option String) : Bool := !(jsFalsy x)

/-- Models the JavaScript expression `x || d` for an optional string `x` and a
string default `d`. -/
def jsOrElseStr (x : Option String) (d : String) : String :=
  match x with
  | none => d
  | some s => if s == "" then d else s

/-- Models `x || null` / `x || undefined` for an optional string (the empty
string collapses to `none`). -/
def jsOrNone (x : Option String) : Option String :=
  match x with
  | none => none
  | some s => if s == "" then none else some s

/-- Models `x || null` for an optional number; `0` is falsy in JavaScript. -/
def jsOrNoneNat (x : Option Nat) : Option Nat :=
  match x with
  | none => none
  | some n => if n == 0 then none else some n

/-- Models `x || null` for an optional integer; `0` is falsy in JavaScript. -/
def jsOrNoneInt (x : Option Int) : Option Int :=
  match x with
  | none => none
  | some n => if n == 0 then none else some n

/-! ### SHA-256 (FIPS 180-4), used by `computeS256Challenge`

The source calls Node's `createHash('sha256')`; this is the standard
algorithm over `Nat` words reduced modulo `2 ^ 32`. -/

namespace SHA256

/-- Reduce modulo the 32-bit word size. -/
def modw (x : Nat) : Nat := x % 4294967296

/-- Rotate a 32-bit word right by n positions. -/
def rotr32 (n x : Nat) : Nat := modw ((x >>> n) ||| (x <<< (32 - n)))

def bigSigma0 (x : Nat) : Nat := (rotr32 2 x) ^^^ (rotr32 13 x) ^^^ (rotr32 22 x)

def bigSigma1 (x : Nat) : Nat := (rotr32 6 x) ^^^ (rotr32 11 x) ^^^ (rotr32 25 x)

def smallSigma0 (x : Nat) : Nat := (rotr32 7 x) ^^^ (rotr32 18 x) ^^^ (x >>> 3)

def smallSigma1 (x : Nat) : Nat := (rotr32 17 x) ^^^ (rotr32 19 x) ^^^ (x >>> 10)

def ch (x y z : Nat) : Nat := (x &&& y) ^^^ ((x ^^^ 4294967295) &&& z)

def maj (x y z : Nat) : Nat := (x &&& y) ^^^ (x &&& z) ^^^ (y &&& z)

/-- The 64 round constants. -/
def roundK : Array Nat := #[
  1116352408, 1899447441, 3049323471, 3921009573,
  961987163, 1508970993, 2453635748, 2870763221,
  3624381080, 310598401, 607225278, 1426881987,
  1925078388, 2162078206, 2614888103, 3248222580,
  3835390401, 4022224774, 264347078, 604807628,
  770255983, 1249150122, 1555081692, 1996064986,
  2554220882, 2821834349, 2952996808, 3210313671,
  3336571891, 3584528711, 113926993, 338241895,
  666307205, 773529912, 1294757372, 1396182291,
  1695183700, 1986661051, 2177026350, 2456956037,
  2730485921, 2820302411, 3259730800, 3345764771,
  3516065817, 3600352804, 4094571909, 275423344,
  430227734, 506948616, 659060556, 883997877,
  958139571, 1322822218, 1537002063, 1747873779,
  1955562222, 2024104815, 2227730452, 2361852424,
  2428436474, 2756734187, 3204031479, 3329325298]

/-- Working registers of the compression function. -/
structure Regs where
  a : Nat
  b : Nat
  c : Nat
  d : Nat
  e : Nat
  f : Nat
  g : Nat
  h : Nat
deriving Repr, DecidableEq

def initRegs : Regs :=
  ⟨1779033703, 3144134277, 1013904242, 2773480762,
    1359893119, 2600822924, 528734635, 1541459225⟩

/-- Extend a 16-word block to the 64-word message schedule. -/
def buildSchedule (block : Array Nat) : Array Nat :=
  (List.range 48).foldl
    (fun w i =>
      let t := 16 + i
      w.push (modw (smallSigma1 (w.getD (t - 2) 0) + w.getD (t - 7) 0 +
        smallSigma0 (w.getD (t - 15) 0) + w.getD (t - 16) 0)))
    block

/-- One round of the compression function. -/
def roundStep (w : Array Nat) (r : Regs) (t : Nat) : Regs :=
  let t1 := modw (r.h + bigSigma1 r.e + ch r.e r.f r.g + roundK.getD t 0 + w.getD t 0)
  let t2 := modw (bigSigma0 r.a + maj r.a r.b r.c)
  { a := modw (t1 + t2), b := r.a, c := r.b, d := r.c,
    e := modw (r.d + t1), f := r.e, g := r.f, h := r.g }

/-- Compress one 512-bit block (given as 16 big-endian words) into the state. -/
def compress (regs : Regs) (block : List Nat) : Regs :=
  let w := buildSchedule block.toArray
  let r := (List.range 64).foldl (roundStep w) regs
  { a := modw (regs.a + r.a), b := modw (regs.b + r.b), c := modw (regs.c + r.c),
    d := modw (regs.d + r.d), e := modw (regs.e + r.e), f := modw (regs.f + r.f),
    g := modw (regs.g + r.g), h := modw (regs.h + r.h) }

/-- Big-endian byte expansion of `x` into `n` bytes. -/
def beBytes (n x : Nat) : List Nat :=
  (List.range n).map (fun i => (x >>> (8 * (n - 1 - i))) % 256)

/-- SHA-256 padding: a `0x80` byte, zeros, and the 64-bit big-endian message
bit length, to a multiple of 64 bytes. -/
def padMessage (msg : List Nat) : List Nat :=
  let len := msg.length
  let zeros := (55 + 64 - len % 64) % 64
  msg ++ [0x80] ++ List.replicate zeros 0 ++ beBytes 8 (8 * len)

/-- Collect bytes into big-endian 32-bit words, four bytes at a time. -/
def bytesToWords : List Nat → List Nat
  | b0 :: b1 :: b2 :: b3 :: rest =>
    (((b0 * 256 + b1) * 256 + b2) * 256 + b3) :: bytesToWords rest
  | _ => []

/-- Split a word list into 16-word blocks. -/
def group16 : List Nat → List (List Nat)
  | [] => []
  | w :: ws => ((w :: ws).take 16) :: group16 ((w :: ws).drop 16)
termination_by l => l.length
decreasing_by simp [List.length_drop]; omega

/-- The SHA-256 digest of a byte list, as 32 bytes. -/
def sha256Bytes (msg : List Nat) : List Nat :=
  let final := (group16 (bytesToWords (padMessage msg))).foldl compress initRegs
  beBytes 4 final.a ++ beBytes 4 final.b ++ beBytes 4 final.c ++ beBytes 4 final.d ++
    beBytes 4 final.e ++ beBytes 4 final.f ++ beBytes 4 final.g ++ beBytes 4 final.h

end SHA256

/-- The UTF-8 bytes of a string, as `Nat`s (Node hashes the verifier with the
default utf8 encoding). -/
def utf8Bytes (s : String) : List Nat :=
  s.toUTF8.toList.map (fun b => b.toNat)

/-- The base64url alphabet (RFC 4648). -/
def b64UrlAlphabet : List Char :=
  "ABCDEFGHIJKLMNOPQRSTUVWXYZabcdefghijklmnopqrstuvwxyz0123456789-_".toList

def b64Char (n : Nat) : Char := b64UrlAlphabet.getD n 'A'

/-- Base64url encoding without padding, as performed by the source's
`base64UrlEncode` (Buffer base64 with `+` `/` replaced and `=` stripped). -/
def base64UrlEncode : List Nat → List Char
  | b0 :: b1 :: b2 :: rest =>
    b64Char (b0 / 4) :: b64Char ((b0 % 4) * 16 + b1 / 16) ::
      b64Char ((b1 % 16) * 4 + b2 / 64) :: b64Char (b2 % 64) :: base64UrlEncode rest
  | [b0, b1] =>
    [b64Char (b0 / 4), b64Char ((b0 % 4) * 16 + b1 / 16), b64Char ((b1 % 16) * 4)]
  | [b0] => [b64Char (b0 / 4), b64Char ((b0 % 4) * 16)]
  | [] => []

/-- Embedding of `computeS256Challenge` from `src/oauth/pkce.ts`:
`BASE64URL(SHA256(code_verifier))`. -/
def computeS256Challenge (codeVerifier : String) : String :=
  String.mk (base64UrlEncode (SHA256.sha256Bytes (utf8Bytes codeVerifier)))

/-- Embedding of `verifyCodeChallenge` from `src/oauth/pkce.ts`.  The method is kept as a
string because the TypeScript enum is erased at runtime and the stored
`code_challenge_method` column is an arbitrary string. -/
def verifyCodeChallenge (codeVerifier codeChallenge method : String) : Bool :=
  if method == "plain" then codeVerifier == codeChallenge
  else if method == "S256" then computeS256Challenge codeVerifier == codeChallenge
  else false

/-- Character class `[A-Za-z0-9\-._~]` of a PKCE code verifier. -/
def isPkceChar (c : Char) : Bool :=
  ('A' ≤ c && c ≤ 'Z') || ('a' ≤ c && c ≤ 'z') || ('0' ≤ c && c ≤ '9') ||
    c == '-' || c == '.' || c == '_' || c == '~'

/-- Embedding of `isValidCodeVerifier` from `src/oauth/pkce.ts`: 43-128 characters from the
PKCE alphabet. -/
def isValidCodeVerifier (codeVerifier : String) : Bool :=
  if codeVerifier.length < 43 || codeVerifier.length > 128 then false
  else codeVerifier.toList.all isPkceChar

/-- Character class `[A-Za-z0-9\-_]` of a base64url string. -/
def isB64UrlChar (c : Char) : Bool :=
  ('A' ≤ c && c ≤ 'Z') || ('a' ≤ c && c ≤ 'z') || ('0' ≤ c && c ≤ '9') ||
    c == '-' || c == '_'

/-- Embedding of `isValidCodeChallenge` from `src/oauth/pkce.ts`: for S256 exactly 43
base64url characters; for plain the verifier rule. -/
def isValidCodeChallenge (codeChallenge method : String) : Bool :=
  if method == "S256" then
    if codeChallenge.length != 43 then false
    else codeChallenge.toList.all isB64UrlChar
  else if method == "plain" then isValidCodeVerifier codeChallenge
  else false

/-! ### Data model

The three SQLite tables from `src/db/index.ts`, as Lean structures, and the
model objects from `src/db/models/*.ts` as functions over lists of rows.
SQLite integers become `Nat` (epoch seconds, flags) or `Int` (company ids);
nullable columns become `Option`. -/

/-- A row of the `auth_codes` table (an AuthorizationSession). -/
structure AuthCode where
  code : String
  client_id : String
  redirect_uri : String
  scope : Option String
  code_challenge : String
  code_challenge_method : String
  state : Option String
  freee_code : Option String
  user_id : Option String
  company_id : Option Int
  created_at : Nat
  expires_at : Nat
  used : Nat
deriving Repr, DecidableEq

/-- A row of the `tokens` table (an IssuedToken). -/
structure Token where
  id : String
  client_id : String
  user_id : Option String
  company_id : Option Int
  access_token : String
  refresh_token : Option String
  freee_access_token : String
  freee_refresh_token : Option String
  freee_token_expires_at : Option Nat
  scope : Option String
  created_at : Nat
  expires_at : Nat
  revoked : Nat
deriving Repr, DecidableEq

/-- A row of the `oauth_clients` table (a RegisteredClient). -/
structure OAuthClient where
  id : String
  client_id : String
  client_secret : String
  client_name : Option String
  redirect_uris : List String
  grant_types : List String
  response_types : List String
  scope : Option String
  created_at : Nat
  updated_at : Nat
deriving Repr, DecidableEq

abbrev AuthCodeStore := List AuthCode

abbrev TokenStore := List Token

abbrev ClientStore := List OAuthClient

/-! ### `authCodeModel` (src/db/models/authCode.ts) -/

structure CreateAuthCodeRequest where
  client_id : String
  redirect_uri : String
  scope : Option String
  code_challenge : String
  code_challenge_method : Option String
  state : Option String
deriving Repr, DecidableEq

/-- Codes expire in 10 minutes. -/
def CODE_EXPIRY_SECONDS : Nat := 600

/-- Embedding of `authCodeModel.create`.  The randomly generated 32-byte hex code and the
current epoch time are passed in explicitly. -/
def authCodeModel.create (request : CreateAuthCodeRequest) (code : String) (now : Nat) :
    AuthCode :=
  { code := code
    client_id := request.client_id
    redirect_uri := request.redirect_uri
    scope := jsOrNone request.scope
    code_challenge := request.code_challenge
    code_challenge_method := jsOrElseStr request.code_challenge_method "S256"
    state := jsOrNone request.state
    freee_code := none
    user_id := none
    company_id := none
    created_at := now
    expires_at := now + CODE_EXPIRY_SECONDS
    used := 0 }

/-- Embedding of `authCodeModel.findByCode`: `SELECT * FROM auth_codes WHERE code = ?`
(`code` is the primary key, so at most one row matches). -/
def authCodeModel.findByCode (s : AuthCodeStore) (code : String) : Option AuthCode :=
  s.find? (fun a => a.code == code)

/-- Embedding of `authCodeModel.markAsUsed`: `UPDATE auth_codes SET used = 1 WHERE code = ?`. -/
def authCodeModel.markAsUsed (s : AuthCodeStore) (code : String) : AuthCodeStore :=
  s.map (fun a => if a.code == code then { a with used := 1 } else a)

/-- Embedding of `authCodeModel.isValid`: unused and not yet expired at `now`. -/
def authCodeModel.isValid (a : AuthCode) (now : Nat) : Bool :=
  a.used == 0 && decide (a.expires_at > now)

/-! ### `tokenModel` (src/db/models/token.ts) -/

structure CreateTokenRequest where
  client_id : String
  user_id : Option String
  company_id : Option Int
  access_token : String
  refresh_token : Option String
  freee_access_token : String
  freee_refresh_token : Option String
  freee_token_expires_at : Option Nat
  scope : Option String
  expires_in : Nat
deriving Repr, DecidableEq

/-- Embedding of `tokenModel.create`.  The generated UUID, the 32-byte random refresh token
fallback and the current epoch time are passed in explicitly. -/
def tokenModel.create (request : CreateTokenRequest) (id refreshRand : String) (now : Nat) :
    Token :=
  { id := id
    client_id := request.client_id
    user_id := jsOrNone request.user_id
    company_id := jsOrNoneInt request.company_id
    access_token := request.access_token
    refresh_token := some (jsOrElseStr request.refresh_token refreshRand)
    freee_access_token := request.freee_access_token
    freee_refresh_token := jsOrNone request.freee_refresh_token
    freee_token_expires_at := jsOrNoneNat request.freee_token_expires_at
    scope := jsOrNone request.scope
    created_at := now
    expires_at := now + request.expires_in
    revoked := 0 }

/-- Embedding of `tokenModel.findByAccessToken`:
`SELECT * FROM tokens WHERE access_token = ? AND revoked = 0`. -/
def tokenModel.findByAccessToken (s : TokenStore) (accessToken : String) : Option Token :=
  s.find? (fun t => t.access_token == accessToken && t.revoked == 0)

/-- Embedding of `tokenModel.findByRefreshToken`:
`SELECT * FROM tokens WHERE refresh_token = ? AND revoked = 0` (a SQL `=`
against a NULL column never matches). -/
def tokenModel.findByRefreshToken (s : TokenStore) (refreshToken : String) : Option Token :=
  s.find? (fun t => t.refresh_token == some refreshToken && t.revoked == 0)

/-- Embedding of `tokenModel.updateFreeeTokens`: update the three upstream columns of the
row with the given id, leaving every other column and row alone. -/
def tokenModel.updateFreeeTokens (s : TokenStore) (id : String) (freeeAccessToken : String)
    (freeeRefreshToken : Option String) (freeeTokenExpiresAt : Option Nat) : TokenStore :=
  s.map (fun t =>
    if t.id == id then
      { t with freee_access_token := freeeAccessToken,
               freee_refresh_token := freeeRefreshToken,
               freee_token_expires_at := freeeTokenExpiresAt }
    else t)

/-- Embedding of `tokenModel.revoke`: `UPDATE tokens SET revoked = 1 WHERE id = ?`. -/
def tokenModel.revoke (s : TokenStore) (id : String) : TokenStore :=
  s.map (fun t => if t.id == id then { t with revoked := 1 } else t)

/-- Embedding of `tokenModel.isValid`: not revoked and not expired at `now`. -/
def tokenModel.isValid (t : Token) (now : Nat) : Bool :=
  t.revoked == 0 && decide (t.expires_at > now)

/-! ### `clientModel` (src/db/models/client.ts) -/

structure CreateClientRequest where
  client_name : Option String
  redirect_uris : List String
  grant_types : Option (List String)
  response_types : Option (List String)
  scope : Option String
deriving Repr, DecidableEq

/-- Embedding of `clientModel.create`.  The generated UUID, `chatgpt_`-prefixed client id,
random secret and the current epoch time are passed in explicitly.  An empty
array is truthy in JavaScript, so only a missing list falls back to the
defaults. -/
def clientModel.create (request : CreateClientRequest) (id clientId clientSecret : String)
    (now : Nat) : OAuthClient :=
  { id := id
    client_id := clientId
    client_secret := clientSecret
    client_name := jsOrNone request.client_name
    redirect_uris := request.redirect_uris
    grant_types := request.grant_types.getD ["authorization_code", "refresh_token"]
    response_types := request.response_types.getD ["code"]
    scope := some (jsOrElseStr request.scope "read write")
    created_at := now
    updated_at := now }

/-- Embedding of `clientModel.findByClientId`. -/
def clientModel.findByClientId (s : ClientStore) (clientId : String) : Option OAuthClient :=
  s.find? (fun c => c.client_id == clientId)

/-- Embedding of `clientModel.validateRedirectUri`: exact membership in the registered
list. -/
def clientModel.validateRedirectUri (client : OAuthClient) (redirectUri : String) : Bool :=
  client.redirect_uris.contains redirectUri

/-! ### Upstream token exchanger (src/freee/auth.ts)

`exchangeCodeForTokens` and `refreshAccessToken` are network calls; their
outcome enters each handler as an explicit `Except` value: `.ok` carries the
parsed upstream token response, `.error` the thrown message. -/

/-- The JSON body of a successful freee token response. -/
structure FreeeTokenResponse where
  access_token : String
  token_type : String
  expires_in : Nat
  refresh_token : String
  scope : String
  created_at : Nat
deriving Repr, DecidableEq

/-! ### URL parsing

The register handler runs every redirect URI through Node's WHATWG `URL`
class and reads `protocol` and `hostname`. -/

/-- The parts of a parsed URL that the handlers inspect. -/
structure URLParts where
  protocol : String
  hostname : String
deriving Repr, DecidableEq

def isSchemeChar (c : Char) : Bool :=
  c.isAlpha || c.isDigit || c == '+' || c == '-' || c == '.'

/-- Split a character list at the first occurrence of the separator,
returning the parts before and after it. -/
def splitFirst (sep : List Char) : List Char → Option (List Char × List Char)
  | [] => none
  | c :: cs =>
    if sep.isPrefixOf (c :: cs) then some ([], (c :: cs).drop sep.length)
    else
      match splitFirst sep cs with
      | none => none
      | some (pre, post) => some (c :: pre, post)

/-- Modelled from the WHATWG URL parser behind Node's `new URL(uri)`,
restricted to the `scheme://host[:port][/path]` shapes the redirect URIs of
this server take: the protocol (lowercased, with its trailing colon) and the
hostname (lowercased, userinfo and port stripped); a string without a
`scheme://host` prefix is a parse failure, which the source maps to its
`catch` branch. -/
def parseURL (s : String) : Option URLParts :=
  match splitFirst "://".toList s.toList with
  | none => none
  | some (schemeCs, rest) =>
    match schemeCs with
    | [] => none
    | c :: cs =>
      if !(c.isAlpha) || !((c :: cs).all isSchemeChar) then none
      else
        let authority := rest.takeWhile (fun ch => !(ch == '/' || ch == '?' || ch == '#'))
        let hostPort := (authority.reverse.takeWhile (fun ch => ch != '@')).reverse
        let hostname := hostPort.takeWhile (fun ch => ch != ':')
        if hostname.isEmpty then none
        else
          some { protocol := String.mk (schemeCs.map Char.toLower) ++ ":",
                 hostname := String.mk (hostname.map Char.toLower) }

/-- Substring containment, as JavaScript's `String.prototype.includes`. -/
def containsSub (s pat : String) : Bool :=
  s.toList.tails.any (fun t => pat.toList.isPrefixOf t)

/-! ### Dynamic Client Registration handler (src/oauth/dcr.ts) -/

structure DCRRequest where
  client_name : Option String
  redirect_uris : Option (List String)
  grant_types : Option (List String)
  response_types : Option (List String)
  scope : Option String
deriving Repr, DecidableEq

/-- The outcome of `POST /oauth/register`: a 400 error body, or 201 with the
freshly created client (from which the DCR response is built). -/
inductive RegisterResult where
  | err (status : Nat) (error : String) (description : String)
  | created (client : OAuthClient)
deriving Repr, DecidableEq

/-- The per-URI validation loop of the register handler: parse failure or a
non-HTTPS URI whose hostname neither contains the substring `localhost` nor
equals `127.0.0.1` stops the loop with an `invalid_redirect_uri` error. -/
def checkRedirectUris : List String → Option RegisterResult
  | [] => none
  | uri :: rest =>
    match parseURL uri with
    | none =>
      some (.err 400 "invalid_redirect_uri" ("Invalid redirect URI format: " ++ uri))
    | some u =>
      if u.protocol != "https:" && !(containsSub u.hostname "localhost") &&
          u.hostname != "127.0.0.1" then
        some (.err 400 "invalid_redirect_uri" ("Redirect URI must use HTTPS: " ++ uri))
      else checkRedirectUris rest

/-- First element of `l` outside the allowed set, mirroring the grant/response
type validation loops. -/
def firstUnsupported (allowed : List String) : List String → Option String
  | [] => none
  | x :: rest => if !(allowed.contains x) then some x else firstUnsupported allowed rest

def allowedGrantTypes : List String := ["authorization_code", "refresh_token"]

def allowedResponseTypes : List String := ["code"]

/-- The `POST /oauth/register` handler.  The generated UUID, client id,
client secret and epoch time are passed in explicitly. -/
def handleRegister (clients : ClientStore) (body : DCRRequest)
    (id clientId clientSecret : String) (now : Nat) : RegisterResult × ClientStore :=
  match body.redirect_uris with
  | none =>
    (.err 400 "invalid_client_metadata" "redirect_uris is required and must be a non-empty array",
      clients)
  | some uris =>
    if uris.isEmpty then
      (.err 400 "invalid_client_metadata" "redirect_uris is required and must be a non-empty array",
        clients)
    else
      match checkRedirectUris uris with
      | some e => (e, clients)
      | none =>
        let grantTypes := body.grant_types.getD ["authorization_code"]
        match firstUnsupported allowedGrantTypes grantTypes with
        | some g => (.err 400 "invalid_client_metadata" ("Unsupported grant_type: " ++ g), clients)
        | none =>
          let responseTypes := body.response_types.getD ["code"]
          match firstUnsupported allowedResponseTypes responseTypes with
          | some r =>
            (.err 400 "invalid_client_metadata" ("Unsupported response_type: " ++ r), clients)
          | none =>
            let client := clientModel.create
              { client_name := body.client_name
                redirect_uris := uris
                grant_types := some grantTypes
                response_types := some responseTypes
                scope := body.scope }
              id clientId clientSecret now
            (.created client, clients ++ [client])

/-! ### Authorization endpoint (src/oauth/authorize.ts) -/

/-- The query string of `GET /oauth/authorize` (each parameter a string or
absent). -/
structure AuthorizeQuery where
  response_type : Option String
  client_id : Option String
  redirect_uri : Option String
  scope : Option String
  state : Option String
  code_challenge : Option String
  code_challenge_method : Option String
deriving Repr, DecidableEq

/-- The outcome of the authorize handler: a direct JSON error body, a 302
redirect to the supplied redirect URI carrying `error`, `error_description`
and (when truthy) `state` query parameters, or the 302 redirect to freee's
authorization endpoint carrying the fresh session code as `state`. -/
inductive AuthorizeResult where
  | jsonErr (status : Nat) (error : String) (description : String)
  | redirectErr (uri : String) (error : String) (description : String) (state : Option String)
  | redirectFreee (stateParam : String)
deriving Repr, DecidableEq

/-- Embedding of `redirectWithError`: falls back to a direct 400 JSON body when the
redirect URI is falsy; otherwise runs the redirect URI through `new URL` —
whose throw on an unparseable string propagates to the surrounding handler's
catch and surfaces as the 500 `server_error` JSON body — and redirects to it
with the error attached.  The parse is modelled by `parseURL`, the restricted
model of the WHATWG parser defined above. -/
def redirectWithError (redirectUri : Option String) (error errorDescription : String)
    (state : Option String) : AuthorizeResult :=
  if jsFalsy redirectUri then .jsonErr 400 error errorDescription
  else
    match parseURL (redirectUri.getD "") with
    | none => .jsonErr 500 "server_error" "An unexpected error occurred"
    | some _ => .redirectErr (redirectUri.getD "") error errorDescription (jsOrNone state)

/-- The `GET /oauth/authorize` handler.  The generated session code and epoch
time are passed in explicitly. -/
def handleAuthorize (clients : ClientStore) (codes : AuthCodeStore) (q : AuthorizeQuery)
    (genCode : String) (now : Nat) : AuthorizeResult × AuthCodeStore :=
  if jsFalsy q.response_type || q.response_type != some "code" then
    (redirectWithError q.redirect_uri "unsupported_response_type"
      "Only code response_type is supported" q.state, codes)
  else if jsFalsy q.client_id then
    (.jsonErr 400 "invalid_request" "client_id is required", codes)
  else if jsFalsy q.redirect_uri then
    (.jsonErr 400 "invalid_request" "redirect_uri is required", codes)
  else if jsFalsy q.code_challenge then
    (redirectWithError q.redirect_uri "invalid_request" "code_challenge is required (PKCE)"
      q.state, codes)
  else
    let codeChallengeMethod := jsOrElseStr q.code_challenge_method "S256"
    if codeChallengeMethod != "S256" then
      (redirectWithError q.redirect_uri "invalid_request"
        "Only S256 code_challenge_method is supported" q.state, codes)
    else if !(isValidCodeChallenge (q.code_challenge.getD "") codeChallengeMethod) then
      (redirectWithError q.redirect_uri "invalid_request" "Invalid code_challenge format"
        q.state, codes)
    else
      match clientModel.findByClientId clients (q.client_id.getD "") with
      | none => (.jsonErr 400 "invalid_client" "Unknown client_id", codes)
      | some client =>
        if !(clientModel.validateRedirectUri client (q.redirect_uri.getD "")) then
          (.jsonErr 400 "invalid_request" "redirect_uri does not match registered URIs", codes)
        else
          let authCode := authCodeModel.create
            { client_id := q.client_id.getD ""
              redirect_uri := q.redirect_uri.getD ""
              scope := q.scope
              code_challenge := q.code_challenge.getD ""
              code_challenge_method := some codeChallengeMethod
              state := q.state }
            genCode now
          (.redirectFreee authCode.code, codes ++ [authCode])

/-! ### Token endpoint (src/oauth/token.ts)

`handleAuthorizationCodeGrant` is split at its only suspension point that
matters for the session store: everything from parameter validation through
`markAsUsed` and the `freee_code` check runs synchronously on Node's event
loop (`authGrantValidate`), then the handler awaits the upstream exchange and
finishes (`authGrantFinish`).  `handleAuthorizationCodeGrant` recombines the
two stages into the sequential handler. -/

structure TokenRequestBody where
  grant_type : Option String
  code : Option String
  redirect_uri : Option String
  client_id : Option String
  client_secret : Option String
  code_verifier : Option String
  refresh_token : Option String
deriving Repr, DecidableEq

/-- The outcome of `POST /oauth/token`: an error body with its HTTP status, or
the 200 token response. -/
inductive TokenResult where
  | err (status : Nat) (error : String) (description : String)
  | ok (access_token : String) (token_type : String) (expires_in : Nat)
      (refresh_token : Option String) (scope : Option String)
deriving Repr, DecidableEq

/-- Result of the synchronous validation stage of the authorization_code
grant. -/
inductive AuthGrantStage where
  | fail (r : TokenResult)
  | proceed (authCode : AuthCode)
deriving Repr, DecidableEq

/-- The synchronous prefix of `handleAuthorizationCodeGrant`: required
parameters, session lookup, validity, client and redirect_uri binding, PKCE
verification, `markAsUsed`, and the `freee_code` presence check.  Returns the
stage outcome together with the (possibly updated) session store. -/
def authGrantValidate (codes : AuthCodeStore) (body : TokenRequestBody)
    (clientId : Option String) (now : Nat) : AuthGrantStage × AuthCodeStore :=
  if jsFalsy body.code then
    (.fail (.err 400 "invalid_request" "code is required"), codes)
  else if jsFalsy body.redirect_uri then
    (.fail (.err 400 "invalid_request" "redirect_uri is required"), codes)
  else if jsFalsy body.code_verifier then
    (.fail (.err 400 "invalid_request" "code_verifier is required (PKCE)"), codes)
  else if jsFalsy clientId then
    (.fail (.err 400 "invalid_request" "client_id is required"), codes)
  else
    match authCodeModel.findByCode codes (body.code.getD "") with
    | none => (.fail (.err 400 "invalid_grant" "Invalid or expired authorization code"), codes)
    | some authCode =>
      if !(authCodeModel.isValid authCode now) then
        (.fail (.err 400 "invalid_grant" "Authorization code has expired or already been used"),
          codes)
      else if some authCode.client_id != clientId then
        (.fail (.err 400 "invalid_grant" "Authorization code was not issued to this client"),
          codes)
      else if some authCode.redirect_uri != body.redirect_uri then
        (.fail (.err 400 "invalid_grant" "redirect_uri does not match"), codes)
      else if !(verifyCodeChallenge (body.code_verifier.getD "") authCode.code_challenge
          authCode.code_challenge_method) then
        (.fail (.err 400 "invalid_grant" "Invalid code_verifier"), codes)
      else
        let codes1 := authCodeModel.markAsUsed codes authCode.code
        if jsFalsy authCode.freee_code then
          (.fail (.err 400 "invalid_grant" "No freee authorization code available"), codes1)
        else
          (.proceed authCode, codes1)

/-- The continuation of the authorization_code grant after the upstream
exchange resolves: on upstream failure report `invalid_grant`; on success mint
the JWT (uninterpreted, passed in), store the token mapping and answer 200. -/
def authGrantFinish (tokens : TokenStore) (authCode : AuthCode) (clientId : String)
    (exchangeResult : Except String FreeeTokenResponse)
    (jwt tokenId refreshRand : String) (now : Nat) : TokenResult × TokenStore :=
  match exchangeResult with
  | .error _ =>
    (.err 400 "invalid_grant" "Failed to exchange authorization code with freee", tokens)
  | .ok freeeTokens =>
    let token := tokenModel.create
      { client_id := clientId
        user_id := jsOrNone authCode.user_id
        company_id := jsOrNoneInt authCode.company_id
        access_token := jwt
        refresh_token := none
        freee_access_token := freeeTokens.access_token
        freee_refresh_token := some freeeTokens.refresh_token
        freee_token_expires_at := some (freeeTokens.created_at + freeeTokens.expires_in)
        scope := jsOrNone authCode.scope
        expires_in := 3600 }
      tokenId refreshRand now
    (.ok jwt "Bearer" 3600 (jsOrNone token.refresh_token) (jsOrNone authCode.scope),
      tokens ++ [token])

/-- Embedding of `handleAuthorizationCodeGrant`, sequentially: validate and consume the
session, then settle against the upstream exchange outcome. -/
def handleAuthorizationCodeGrant (codes : AuthCodeStore) (tokens : TokenStore)
    (body : TokenRequestBody) (clientId clientSecret : Option String)
    (exchangeResult : Except String FreeeTokenResponse)
    (jwt tokenId refreshRand : String) (now : Nat) :
    TokenResult × AuthCodeStore × TokenStore :=
  match authGrantValidate codes body clientId now with
  | (.fail r, codes1) => (r, codes1, tokens)
  | (.proceed authCode, codes1) =>
    let (r, tokens1) :=
      authGrantFinish tokens authCode (clientId.getD "") exchangeResult jwt tokenId refreshRand now
    (r, codes1, tokens1)

/-- Embedding of `handleRefreshTokenGrant`: resolve the live token by refresh token, check
the client binding and the stored upstream refresh token, call the upstream
refresh (outcome passed in), revoke the predecessor and mint the successor. -/
def handleRefreshTokenGrant (tokens : TokenStore) (body : TokenRequestBody)
    (clientId clientSecret : Option String)
    (refreshResult : Except String FreeeTokenResponse)
    (jwt tokenId refreshRand : String) (now : Nat) : TokenResult × TokenStore :=
  if jsFalsy body.refresh_token then
    (.err 400 "invalid_request" "refresh_token is required", tokens)
  else if jsFalsy clientId then
    (.err 400 "invalid_request" "client_id is required", tokens)
  else
    match tokenModel.findByRefreshToken tokens (body.refresh_token.getD "") with
    | none => (.err 400 "invalid_grant" "Invalid refresh token", tokens)
    | some existingToken =>
      if some existingToken.client_id != clientId then
        (.err 400 "invalid_grant" "Refresh token was not issued to this client", tokens)
      else if jsFalsy existingToken.freee_refresh_token then
        (.err 400 "invalid_grant" "No freee refresh token available", tokens)
      else
        match refreshResult with
        | .error _ =>
          (.err 400 "invalid_grant" "Failed to refresh freee token",
            tokenModel.revoke tokens existingToken.id)
        | .ok freeeTokens =>
          let tokens1 := tokenModel.revoke tokens existingToken.id
          let newToken := tokenModel.create
            { client_id := clientId.getD ""
              user_id := jsOrNone existingToken.user_id
              company_id := jsOrNoneInt existingToken.company_id
              access_token := jwt
              refresh_token := none
              freee_access_token := freeeTokens.access_token
              freee_refresh_token := some freeeTokens.refresh_token
              freee_token_expires_at := some (freeeTokens.created_at + freeeTokens.expires_in)
              scope := jsOrNone existingToken.scope
              expires_in := 3600 }
            tokenId refreshRand now
          (.ok jwt "Bearer" 3600 (jsOrNone newToken.refresh_token)
            (jsOrNone existingToken.scope), tokens1 ++ [newToken])

/-- The `POST /oauth/token` dispatcher: merge the body credentials with the
decoded Basic authorization header (body values win when truthy), then route
on `grant_type`.  `basicCreds` is the decoded `id:secret` pair when a Basic
header is present (`none` secret when the credentials held no colon). -/
def tokenEndpoint (codes : AuthCodeStore) (tokens : TokenStore) (body : TokenRequestBody)
    (basicCreds : Option (String × Option String))
    (exchangeResult refreshResult : Except String FreeeTokenResponse)
    (jwt tokenId refreshRand : String) (now : Nat) :
    TokenResult × AuthCodeStore × TokenStore :=
  let clientId := match basicCreds with
    | none => body.client_id
    | some (hid, _) => if jsTruthy body.client_id then body.client_id else some hid
  let clientSecret := match basicCreds with
    | none => body.client_secret
    | some (_, hsec) => if jsTruthy body.client_secret then body.client_secret else hsec
  if jsFalsy body.grant_type then
    (.err 400 "invalid_request" "grant_type is required", codes, tokens)
  else if body.grant_type == some "authorization_code" then
    handleAuthorizationCodeGrant codes tokens body clientId clientSecret exchangeResult
      jwt tokenId refreshRand now
  else if body.grant_type == some "refresh_token" then
    let (r, tokens1) := handleRefreshTokenGrant tokens body clientId clientSecret refreshResult
      jwt tokenId refreshRand now
    (r, codes, tokens1)
  else
    (.err 400 "unsupported_grant_type" ("Unsupported grant_type: " ++ body.grant_type.getD ""),
      codes, tokens)

/-! ### Upstream-token freshness guard (src/freee/client.ts) -/

/-- The outcome of `FreeeClient.ensureValidToken`: the (possibly refreshed)
in-memory token together with the updated token store, or a thrown error. -/
inductive EnsureResult where
  | ok (token : Token) (tokens : TokenStore)
  | error (message : String)
deriving Repr, DecidableEq

/-- Embedding of `FreeeClient.ensureValidToken`: return unchanged while the upstream token
is still more than 300 seconds from expiry (a missing or zero expiry is falsy
and forces a refresh); otherwise refresh upstream (outcome passed in), persist
the new upstream triple onto the same row and update the in-memory token. -/
def FreeeClient.ensureValidToken (token : Token) (tokens : TokenStore) (now : Nat)
    (refreshResult : Except String FreeeTokenResponse) : EnsureResult :=
  let fresh :=
    match token.freee_token_expires_at with
    | none => false
    | some e => !(e == 0) && decide (e > now + 300)
  if fresh then .ok token tokens
  else
    match token.freee_refresh_token with
    | none => .error "Cannot refresh freee token: no refresh token available"
    | some frt =>
      if frt == "" then .error "Cannot refresh freee token: no refresh token available"
      else
        match refreshResult with
        | .error e => .error e
        | .ok newTokens =>
          let expiresAt := newTokens.created_at + newTokens.expires_in
          let tokens1 := tokenModel.updateFreeeTokens tokens token.id newTokens.access_token
            (some newTokens.refresh_token) (some expiresAt)
          let token1 := { token with
            freee_access_token := newTokens.access_token,
            freee_refresh_token := some newTokens.refresh_token,
            freee_token_expires_at := some expiresAt }
          .ok token1 tokens1

/-- Whether a token-endpoint outcome is the 200 success response. -/
def TokenResult.isOk : TokenResult → Bool
  | .ok _ _ _ _ _ => true
  | .err _ _ _ => false

/-! ### Concrete fixtures used by the witness theorems -/

/-- A sample upstream token response. -/
def sampleFreee : FreeeTokenResponse :=
  { access_token := "fa2", token_type := "bearer", expires_in := 21600,
    refresh_token := "fr2", scope := "read", created_at := 5000 }

/-- A sample issued token row. -/
def sampleToken : Token :=
  { id := "t1", client_id := "c1", user_id := none, company_id := none,
    access_token := "at1", refresh_token := some "r1", freee_access_token := "fa1",
    freee_refresh_token := some "fr1", freee_token_expires_at := some 1000,
    scope := some "read", created_at := 0, expires_at := 3600, revoked := 0 }

/-- A sample refresh_token grant request body. -/
def refreshBody : TokenRequestBody :=
  { grant_type := some "refresh_token", code := none, redirect_uri := none,
    client_id := some "c1", client_secret := none, code_verifier := none,
    refresh_token := some "r1" }

/-- A sample authorization session after the upstream callback (a plain PKCE
method keeps kernel evaluation of the witnesses cheap; the token handler never
restricts the stored method). -/
def sampleSession : AuthCode :=
  { code := "code1", client_id := "c1", redirect_uri := "https://x/cb",
    scope := some "read", code_challenge := "ver1", code_challenge_method := "plain",
    state := some "st", freee_code := some "fc", user_id := none, company_id := none,
    created_at := 0, expires_at := 600, used := 0 }

/-- A sample authorization_code grant request body matching `sampleSession`. -/
def authBody : TokenRequestBody :=
  { grant_type := some "authorization_code", code := some "code1",
    redirect_uri := some "https://x/cb", client_id := some "c1", client_secret := none,
    code_verifier := some "ver1", refresh_token := none }

/-- An authorization query carrying an unsupported response_type together with
an attacker-supplied redirect_uri, before any client validation can occur. -/
def evilQuery : AuthorizeQuery :=
  { response_type := some "token", client_id := some "c1",
    redirect_uri := some "https://attacker.example/cb", scope := none, state := none,
    code_challenge := some "x", code_challenge_method := none }

/-- A registration request whose only redirect URI is plain HTTP on a hostname
that merely embeds the substring `localhost` and is not a loopback host. -/
def sneakyDCR : DCRRequest :=
  { client_name := none, redirect_uris := some ["http://localhost.evil.example/cb"],
    grant_types := none, response_types := none, scope := none }

/-- The client row that registering `sneakyDCR` produces. -/
def sneakyClient : OAuthClient :=
  { id := "i1", client_id := "cid1", client_secret := "sec1", client_name := none,
    redirect_uris := ["http://localhost.evil.example/cb"],
    grant_types := ["authorization_code"], response_types := ["code"],
    scope := some "read write", created_at := 0, updated_at := 0 }

/-! ### Concurrency model for racing token-exchange requests

Node's event loop runs the code between two awaits of one request atomically.
The authorization_code grant touches the session store only inside its
synchronous validation stage (`authGrantValidate`, which ends with
`markAsUsed` and the `freee_code` check), then suspends awaiting the upstream
exchange and finishes with `authGrantFinish` (which only appends to the token
store and builds the response).  A system state holds the shared stores and
the phase of every in-flight request; a schedule lists the order in which the
event loop lets requests run their next stage. -/

/-- Whether an upstream call outcome is a success. -/
def exceptOk : Except String FreeeTokenResponse → Bool
  | .ok _ => true
  | .error _ => false

instance : DecidableEq (Except String FreeeTokenResponse) := fun x y =>
  match x, y with
  | .error a, .error b =>
    if h : a = b then isTrue (by rw [h]) else isFalse (fun hc => h (by injection hc))
  | .error _, .ok _ => isFalse (fun hc => by injection hc)
  | .ok _, .error _ => isFalse (fun hc => by injection hc)
  | .ok a, .ok b =>
    if h : a = b then isTrue (by rw [h]) else isFalse (fun hc => h (by injection hc))

/-- The per-request inputs of one concurrent token-exchange request. -/
structure ConcReq where
  body : TokenRequestBody
  clientId : Option String
  clientSecret : Option String
  exchangeResult : Except String FreeeTokenResponse
  jwt : String
  tokenId : String
  refreshRand : String
deriving Repr, DecidableEq

/-- The execution phase of one request: not yet scheduled, suspended on the
upstream exchange (carrying the session row it validated), or finished. -/
inductive ReqPhase where
  | pending
  | awaitingUpstream (authCode : AuthCode)
  | done (r : TokenResult)
deriving Repr, DecidableEq

/-- The shared stores plus each request's phase. -/
structure ConcState where
  codes : AuthCodeStore
  tokens : TokenStore
  phases : List (ConcReq × ReqPhase)
deriving Repr, DecidableEq

/-- Run the next stage of request `i` (a no-op for an unknown index or a
finished request). -/
def concStep (now : Nat) (s : ConcState) (i : Nat) : ConcState :=
  match s.phases[i]? with
  | none => s
  | some (req, .pending) =>
    match authGrantValidate s.codes req.body req.clientId now with
    | (.fail r, codes1) =>
      { s with codes := codes1, phases := s.phases.set i (req, .done r) }
    | (.proceed a, codes1) =>
      { s with codes := codes1, phases := s.phases.set i (req, .awaitingUpstream a) }
  | some (req, .awaitingUpstream a) =>
    let (r, tokens1) := authGrantFinish s.tokens a (req.clientId.getD "") req.exchangeResult
      req.jwt req.tokenId req.refreshRand now
    { s with tokens := tokens1, phases := s.phases.set i (req, .done r) }
  | some (_, .done _) => s

/-- Run a whole schedule. -/
def concRun (now : Nat) : ConcState → List Nat → ConcState
  | s, [] => s
  | s, i :: rest => concRun now (concStep now s i) rest

/-- The state in which every request is still pending. -/
def initConcState (codes : AuthCodeStore) (tokens : TokenStore) (reqs : List ConcReq) :
    ConcState :=
  { codes := codes, tokens := tokens, phases := reqs.map (fun r => (r, ReqPhase.pending)) }

/-- Whether a phase is a finished 200 success. -/
def ReqPhase.isOkDone : ReqPhase → Bool
  | .done (.ok _ _ _ _ _) => true
  | _ => false

/-- Whether a phase is finished. -/
def ReqPhase.isDone : ReqPhase → Bool
  | .done _ => true
  | _ => false

/-- A request that presents the session's code with all required parameters,
the session's own client and redirect_uri, a verifying PKCE verifier, and a
succeeding upstream exchange — one that run alone would succeed. -/
def ReqGood (a : AuthCode) (r : ConcReq) : Prop :=
  r.body.code = some a.code
  ∧ jsFalsy r.body.redirect_uri = false
  ∧ jsFalsy r.body.code_verifier = false
  ∧ jsFalsy r.clientId = false
  ∧ some a.client_id = r.clientId
  ∧ some a.redirect_uri = r.body.redirect_uri
  ∧ verifyCodeChallenge (r.body.code_verifier.getD "") a.code_challenge
      a.code_challenge_method = true
  ∧ exceptOk r.exchangeResult = true

instance (a : AuthCode) (r : ConcReq) : Decidable (ReqGood a r) := by
  unfold ReqGood
  exact inferInstance

/-- The reachable states of a race on session `a`: either nobody has run yet
and the session is untouched, or exactly one winner has consumed it (and is
suspended upstream or finished successfully) while every other request is
still pending or has finished with the used-code `invalid_grant` error. -/
def ConcInv (a : AuthCode) (reqs : List ConcReq) (s : ConcState) : Prop :=
  s.phases.map Prod.fst = reqs
  ∧ ((authCodeModel.findByCode s.codes a.code = some a
        ∧ ∀ rp ∈ s.phases, rp.2 = ReqPhase.pending)
     ∨ (authCodeModel.findByCode s.codes a.code = some { a with used := 1 }
        ∧ ∃ w, w < s.phases.length
          ∧ ((s.phases[w]?.map Prod.snd = some (ReqPhase.awaitingUpstream a))
             ∨ ∃ res, s.phases[w]?.map Prod.snd = some (ReqPhase.done res)
                 ∧ res.isOk = true)
          ∧ ∀ j, j < s.phases.length → j ≠ w →
              (s.phases[j]?.map Prod.snd = some ReqPhase.pending
               ∨ s.phases[j]?.map Prod.snd = some (ReqPhase.done (.err 400 "invalid_grant"
                   "Authorization code has expired or already been used")))))

/-- A registration request with no `redirect_uris` field. -/
def emptyDCR : DCRRequest :=
  { client_name := none, redirect_uris := none, grant_types := none,
    response_types := none, scope := none }

/-- First racing request against `sampleSession`. -/
def concReqA : ConcReq :=
  { body := authBody, clientId := some "c1", clientSecret := none,
    exchangeResult := .ok sampleFreee, jwt := "jwtA", tokenId := "tA", refreshRand := "rA" }

/-- Second racing request against `sampleSession`. -/
def concReqB : ConcReq :=
  { body := authBody, clientId := some "c1", clientSecret := none,
    exchangeResult := .ok sampleFreee, jwt := "jwtB", tokenId := "tB", refreshRand := "rB" }

/-! ### Store lemmas -/

theorem authCodeModel.findByCode_code {s : AuthCodeStore} {c : String} {a : AuthCode}
    (h : authCodeModel.findByCode s c = some a) : a.code = c := by
  have hp := List.find?_some h
  simpa using hp

theorem authCodeModel.findByCode_markAsUsed {s : AuthCodeStore} {c : String} {a : AuthCode}
    (h : authCodeModel.findByCode s c = some a) :
    authCodeModel.findByCode (authCodeModel.markAsUsed s a.code) c = some { a with used := 1 } := by
  have hc : a.code = c := authCodeModel.findByCode_code h
  subst hc
  induction s with
  | nil => simp [authCodeModel.findByCode] at h
  | cons hd tl ih =>
    by_cases hhd : hd.code = a.code
    · have h1 : authCodeModel.findByCode (hd :: tl) a.code = some hd :=
        List.find?_cons_of_pos _ (by simp [hhd])
      rw [h1] at h
      injection h with h2
      subst h2
      simp [authCodeModel.markAsUsed, authCodeModel.findByCode, List.find?_cons_of_pos]
    · have h' : authCodeModel.findByCode tl a.code = some a := by
        simp only [authCodeModel.findByCode] at h ⊢
        rwa [List.find?_cons_of_neg _ (by simp [hhd])] at h
      have hrec := ih h'
      simp only [authCodeModel.markAsUsed, List.map_cons] at hrec ⊢
      rw [if_neg (by simp [hhd])]
      simp only [authCodeModel.findByCode] at hrec ⊢
      rw [List.find?_cons_of_neg _ (by simp [hhd])]
      exact hrec

theorem tokenModel.findByRefreshToken_spec {s : TokenStore} {rt : String} {t : Token}
    (h : tokenModel.findByRefreshToken s rt = some t) :
    t.refresh_token = some rt ∧ t.revoked = 0 ∧ t ∈ s := by
  have hp := List.find?_some h
  have hm := List.mem_of_find?_eq_some h
  simp at hp
  exact ⟨hp.1, hp.2, hm⟩

theorem tokenModel.revoke_mem {s : TokenStore} {idv : String} {t : Token}
    (ht : t ∈ tokenModel.revoke s idv) (hid : t.id = idv) : t.revoked = 1 := by
  simp only [tokenModel.revoke, List.mem_map] at ht
  obtain ⟨t0, _, rfl⟩ := ht
  by_cases h0 : t0.id = idv
  · simp [h0]
  · simp [h0] at hid

theorem tokenModel.findByRefreshToken_after_rotation {s : TokenStore} {rt : String}
    {T newTok : Token}
    (huniq : ∀ t ∈ s, t.refresh_token = some rt → t.id = T.id)
    (hnew : newTok.refresh_token ≠ some rt) :
    tokenModel.findByRefreshToken (tokenModel.revoke s T.id ++ [newTok]) rt = none := by
  rw [tokenModel.findByRefreshToken, List.find?_eq_none]
  intro t ht
  simp only [List.mem_append, List.mem_singleton] at ht
  rcases ht with ht | rfl
  · simp only [tokenModel.revoke, List.mem_map] at ht
    obtain ⟨t0, ht0, rfl⟩ := ht
    by_cases h0 : t0.id = T.id
    · simp [h0]
    · simp [h0]
      intro hrt
      exact absurd (huniq t0 ht0 hrt) h0
  · simp [hnew]

/-! ### Claim theorems -/

/-- C9: for every token-endpoint request, under both grant types, the value of
`client_secret` — absent, correct, or wrong, whether carried in the body or in
the Basic authorization header — has no effect on the outcome: two requests
identical except for their client_secret produce the same result.  (The
handlers receive the merged secret and never read it.) -/
theorem c9_client_secret_no_effect
    (codes : AuthCodeStore) (tokens : TokenStore) (body : TokenRequestBody)
    (s1 s2 : Option String) (hid : String) (h1 h2 : Option String)
    (exchangeResult refreshResult : Except String FreeeTokenResponse)
    (jwt tokenId refreshRand : String) (now : Nat) :
    tokenEndpoint codes tokens { body with client_secret := s1 } none
        exchangeResult refreshResult jwt tokenId refreshRand now
      = tokenEndpoint codes tokens { body with client_secret := s2 } none
        exchangeResult refreshResult jwt tokenId refreshRand now
    ∧ tokenEndpoint codes tokens { body with client_secret := s1 } (some (hid, h1))
        exchangeResult refreshResult jwt tokenId refreshRand now
      = tokenEndpoint codes tokens { body with client_secret := s2 } (some (hid, h2))
        exchangeResult refreshResult jwt tokenId refreshRand now := by
  constructor <;> rfl

/-- C5: for every refresh_token grant whose upstream refresh call fails, the
local IssuedToken found for the presented refresh token is revoked (fail
closed) and the response is `invalid_grant`. -/
theorem c5_upstream_failure_fail_closed
    (tokens : TokenStore) (body : TokenRequestBody) (clientId clientSecret : Option String)
    (e jwt tokenId refreshRand : String) (now : Nat) (rt cid : String) (T : Token)
    (hrt : body.refresh_token = some rt) (hrtne : rt ≠ "")
    (hcid : clientId = some cid) (hcidne : cid ≠ "")
    (hfind : tokenModel.findByRefreshToken tokens rt = some T)
    (hmatch : T.client_id = cid)
    (hfrt : jsFalsy T.freee_refresh_token = false) :
    handleRefreshTokenGrant tokens body clientId clientSecret (.error e) jwt tokenId refreshRand now
      = (.err 400 "invalid_grant" "Failed to refresh freee token", tokenModel.revoke tokens T.id)
    ∧ ∀ t ∈ tokenModel.revoke tokens T.id, t.id = T.id → t.revoked = 1 := by
  refine ⟨?_, fun t ht hid => tokenModel.revoke_mem ht hid⟩
  subst hcid
  simp only [jsFalsy] at hfrt
  simp [handleRefreshTokenGrant, hrt, jsFalsy, hrtne, hcidne, hfind, hmatch, hfrt]

/-- C4: every successful refresh_token grant revokes the predecessor
IssuedToken before returning, leaves at most one token of the rotation chain
live (the freshly minted successor), and the old refresh token used in the
call answers `invalid_grant` on any subsequent use.  The freshness of the
generated UUID and refresh token and the uniqueness of the presented refresh
token among live rows reflect the cryptographically random generation in
`tokenModel.create`. -/
theorem c4_refresh_rotation_single_live
    (tokens : TokenStore) (body : TokenRequestBody) (clientId clientSecret : Option String)
    (ft : FreeeTokenResponse) (jwt tokenId refreshRand : String) (now : Nat)
    (rt cid : String) (T : Token)
    (hrt : body.refresh_token = some rt) (hrtne : rt ≠ "")
    (hcid : clientId = some cid) (hcidne : cid ≠ "")
    (hfind : tokenModel.findByRefreshToken tokens rt = some T)
    (hmatch : T.client_id = cid)
    (hfrt : jsFalsy T.freee_refresh_token = false)
    (hrrne : refreshRand ≠ "") (hrrnert : refreshRand ≠ rt)
    (hfreshid : ∀ t ∈ tokens, t.id ≠ tokenId)
    (huniq : ∀ t ∈ tokens, t.refresh_token = some rt → t.id = T.id) :
    ∀ out, handleRefreshTokenGrant tokens body clientId clientSecret (.ok ft)
        jwt tokenId refreshRand now = out →
      out.1 = .ok jwt "Bearer" 3600 (some refreshRand) (jsOrNone T.scope)
      ∧ (∀ t ∈ out.2, t.id = T.id → t.revoked = 1)
      ∧ tokenModel.findByRefreshToken out.2 rt = none
      ∧ (∀ body2 clientId2 cs2 rr2 jwt2 tid2 rrand2 now2,
          body2.refresh_token = some rt → jsFalsy clientId2 = false →
          handleRefreshTokenGrant out.2 body2 clientId2 cs2 rr2 jwt2 tid2 rrand2 now2
            = (.err 400 "invalid_grant" "Invalid refresh token", out.2))
      ∧ (∃ t ∈ out.2, t.id = tokenId ∧ t.revoked = 0 ∧ t.refresh_token = some refreshRand
          ∧ t.client_id = cid)
      ∧ (∀ t ∈ out.2, t.id = tokenId → t.revoked = 0) := by
  subst hcid
  simp only [jsFalsy] at hfrt
  intro out hout
  have hTmem : T ∈ tokens := (tokenModel.findByRefreshToken_spec hfind).2.2
  have hTid : T.id ≠ tokenId := hfreshid T hTmem
  have hres : handleRefreshTokenGrant tokens body (some cid) clientSecret (.ok ft)
      jwt tokenId refreshRand now
    = (.ok jwt "Bearer" 3600 (some refreshRand) (jsOrNone T.scope),
        tokenModel.revoke tokens T.id ++
          [tokenModel.create
            { client_id := cid, user_id := jsOrNone T.user_id,
              company_id := jsOrNoneInt T.company_id, access_token := jwt,
              refresh_token := none, freee_access_token := ft.access_token,
              freee_refresh_token := some ft.refresh_token,
              freee_token_expires_at := some (ft.created_at + ft.expires_in),
              scope := jsOrNone T.scope, expires_in := 3600 }
            tokenId refreshRand now]) := by
    simp [handleRefreshTokenGrant, hrt, jsFalsy, hrtne, hcidne, hfind, hmatch, hfrt,
      tokenModel.create, jsOrElseStr, jsOrNone, hrrne]
  rw [hres] at hout
  subst hout
  have hnone : tokenModel.findByRefreshToken
      (tokenModel.revoke tokens T.id ++
        [tokenModel.create
          { client_id := cid, user_id := jsOrNone T.user_id,
            company_id := jsOrNoneInt T.company_id, access_token := jwt,
            refresh_token := none, freee_access_token := ft.access_token,
            freee_refresh_token := some ft.refresh_token,
            freee_token_expires_at := some (ft.created_at + ft.expires_in),
            scope := jsOrNone T.scope, expires_in := 3600 }
          tokenId refreshRand now]) rt = none := by
    refine tokenModel.findByRefreshToken_after_rotation huniq ?_
    simp [tokenModel.create, jsOrElseStr, hrrne, hrrnert]
  refine ⟨rfl, ?_, hnone, ?_, ?_, ?_⟩
  · intro t ht hid
    rcases List.mem_append.mp ht with hL | hR
    · exact tokenModel.revoke_mem hL hid
    · simp only [List.mem_singleton] at hR
      subst hR
      simp [tokenModel.create] at hid
      exact absurd hid.symm hTid
  · intro body2 clientId2 cs2 rr2 jwt2 tid2 rrand2 now2 hb2 hc2
    simp only [jsFalsy] at hc2
    simp [handleRefreshTokenGrant, hb2, jsFalsy, hrtne, hc2, hnone]
  · refine ⟨tokenModel.create
      { client_id := cid, user_id := jsOrNone T.user_id,
        company_id := jsOrNoneInt T.company_id, access_token := jwt,
        refresh_token := none, freee_access_token := ft.access_token,
        freee_refresh_token := some ft.refresh_token,
        freee_token_expires_at := some (ft.created_at + ft.expires_in),
        scope := jsOrNone T.scope, expires_in := 3600 }
      tokenId refreshRand now, ?_, ?_⟩
    · simp
    · simp [tokenModel.create, jsOrElseStr, hrrne]
  · intro t ht hid
    rcases List.mem_append.mp ht with hL | hR
    · simp only [tokenModel.revoke, List.mem_map] at hL
      obtain ⟨t0, ht0, rfl⟩ := hL
      by_cases h0 : t0.id = T.id
      · simp [h0] at hid
        exact absurd hid hTid
      · simp [h0] at hid
        exact absurd hid (hfreshid t0 ht0)
    · simp only [List.mem_singleton] at hR
      subst hR
      simp [tokenModel.create]

/-! ### Validation-stage computation lemmas -/

/-- With all required parameters present, a found session that is used or
expired stops the authorization_code grant with `invalid_grant`, leaving the
store untouched. -/
theorem authGrantValidate_invalid_eq
    {codes : AuthCodeStore} {body : TokenRequestBody} {clientId : Option String} {now : Nat}
    {c : String} {a : AuthCode}
    (hc : body.code = some c) (hcne : c ≠ "")
    (hru : jsFalsy body.redirect_uri = false) (hcv : jsFalsy body.code_verifier = false)
    (hci : jsFalsy clientId = false)
    (hfind : authCodeModel.findByCode codes c = some a)
    (hinv : authCodeModel.isValid a now = false) :
    authGrantValidate codes body clientId now =
      (.fail (.err 400 "invalid_grant" "Authorization code has expired or already been used"),
        codes) := by
  have hcF : jsFalsy (some c) = false := by simp [jsFalsy, hcne]
  simp [authGrantValidate, hcF, hru, hcv, hci, hc, hfind, hinv]

/-- With all required parameters present, a valid session matching the
requesting client, redirect_uri and PKCE verifier makes the validation stage
proceed, consuming the session via `markAsUsed`. -/
theorem authGrantValidate_proceed_eq
    {codes : AuthCodeStore} {body : TokenRequestBody} {clientId : Option String} {now : Nat}
    {c : String} {a : AuthCode}
    (hc : body.code = some c) (hcne : c ≠ "")
    (hru : jsFalsy body.redirect_uri = false) (hcv : jsFalsy body.code_verifier = false)
    (hci : jsFalsy clientId = false)
    (hfind : authCodeModel.findByCode codes c = some a)
    (hvalid : authCodeModel.isValid a now = true)
    (hclient : some a.client_id = clientId)
    (hredir : some a.redirect_uri = body.redirect_uri)
    (hpkce : verifyCodeChallenge (body.code_verifier.getD "") a.code_challenge
      a.code_challenge_method = true)
    (hfc : jsFalsy a.freee_code = false) :
    authGrantValidate codes body clientId now =
      (.proceed a, authCodeModel.markAsUsed codes a.code) := by
  have hcF : jsFalsy (some c) = false := by simp [jsFalsy, hcne]
  have h1 : (some a.client_id != clientId) = false := by simp [hclient]
  have h2 : (some a.redirect_uri != body.redirect_uri) = false := by simp [hredir]
  simp [authGrantValidate, hcF, hru, hcv, hci, hc, hfind, hvalid, h1, h2, hpkce, hfc]

/-- C2: an authorization session is redeemable only while it is unused and
before its expiry, which `authCodeModel.create` fixes at `created_at + 600`
seconds.  Conjunct one: a found session that fails `isValid` (used, or past
expiry) makes the exchange answer `invalid_grant` and leaves both stores
unchanged.  Conjunct two: a session that redeems successfully is consumed via
`markAsUsed`, and every later exchange presenting the same code answers
`invalid_grant`.  Conjunct three: a session created at `t0` answers
`invalid_grant` from `t0 + 600` on, even when never used. -/
theorem c2_session_single_use_and_ttl
    (codes : AuthCodeStore) (tokens : TokenStore) (body : TokenRequestBody)
    (clientId clientSecret : Option String) (ex : Except String FreeeTokenResponse)
    (jwt tokenId refreshRand : String) (now : Nat) (c : String) (a : AuthCode)
    (hc : body.code = some c) (hcne : c ≠ "")
    (hru : jsFalsy body.redirect_uri = false) (hcv : jsFalsy body.code_verifier = false)
    (hci : jsFalsy clientId = false)
    (hfind : authCodeModel.findByCode codes c = some a) :
    (authCodeModel.isValid a now = false →
      handleAuthorizationCodeGrant codes tokens body clientId clientSecret ex
          jwt tokenId refreshRand now
        = (.err 400 "invalid_grant" "Authorization code has expired or already been used",
            codes, tokens))
    ∧ (authCodeModel.isValid a now = true →
        some a.client_id = clientId →
        some a.redirect_uri = body.redirect_uri →
        verifyCodeChallenge (body.code_verifier.getD "") a.code_challenge
          a.code_challenge_method = true →
        jsFalsy a.freee_code = false →
        ∀ ft, ex = .ok ft →
          (handleAuthorizationCodeGrant codes tokens body clientId clientSecret ex
              jwt tokenId refreshRand now).1.isOk = true
          ∧ (handleAuthorizationCodeGrant codes tokens body clientId clientSecret ex
              jwt tokenId refreshRand now).2.1 = authCodeModel.markAsUsed codes a.code
          ∧ (∀ tokens2 body2 clientId2 cs2 ex2 jwt2 tid2 rr2 now2,
              body2.code = some c →
              jsFalsy body2.redirect_uri = false →
              jsFalsy body2.code_verifier = false →
              jsFalsy clientId2 = false →
              (handleAuthorizationCodeGrant (authCodeModel.markAsUsed codes a.code) tokens2
                  body2 clientId2 cs2 ex2 jwt2 tid2 rr2 now2).1
                = .err 400 "invalid_grant"
                    "Authorization code has expired or already been used"))
    ∧ (∀ req g t0, a = authCodeModel.create req g t0 → t0 + CODE_EXPIRY_SECONDS ≤ now →
        (handleAuthorizationCodeGrant codes tokens body clientId clientSecret ex
            jwt tokenId refreshRand now).1
          = .err 400 "invalid_grant" "Authorization code has expired or already been used") := by
  refine ⟨?_, ?_, ?_⟩
  · intro hinv
    have hv := authGrantValidate_invalid_eq hc hcne hru hcv hci hfind hinv
    simp [handleAuthorizationCodeGrant, hv]
  · intro hvalid hclient hredir hpkce hfc ft hex
    subst hex
    have hv := authGrantValidate_proceed_eq hc hcne hru hcv hci hfind hvalid hclient hredir
      hpkce hfc
    have hfind2 := authCodeModel.findByCode_markAsUsed hfind
    refine ⟨?_, ?_, ?_⟩
    · simp [handleAuthorizationCodeGrant, hv, authGrantFinish, TokenResult.isOk]
    · simp [handleAuthorizationCodeGrant, hv, authGrantFinish]
    · intro tokens2 body2 clientId2 cs2 ex2 jwt2 tid2 rr2 now2 hc2 hru2 hcv2 hci2
      have hinv2 : authCodeModel.isValid { a with used := 1 } now2 = false := by
        simp [authCodeModel.isValid]
      have hv2 := authGrantValidate_invalid_eq hc2 hcne hru2 hcv2 hci2 hfind2 hinv2
      simp [handleAuthorizationCodeGrant, hv2]
  · intro req g t0 ha hnow
    have hinv : authCodeModel.isValid a now = false := by
      subst ha
      simp only [CODE_EXPIRY_SECONDS] at hnow
      simp [authCodeModel.isValid, authCodeModel.create, CODE_EXPIRY_SECONDS]
      omega
    have hv := authGrantValidate_invalid_eq hc hcne hru hcv hci hfind hinv
    simp [handleAuthorizationCodeGrant, hv]

/-- C10: in the authorization_code grant the session is marked used before the
upstream exchange is attempted, so when the stored upstream code is missing,
or when the upstream exchange fails, the request answers `invalid_grant`
while the session store keeps the consumed (`used = 1`) session — nothing is
rolled back — and any retry of the same code answers `invalid_grant`. -/
theorem c10_session_consumed_on_upstream_failure
    (codes : AuthCodeStore) (tokens : TokenStore) (body : TokenRequestBody)
    (clientId clientSecret : Option String) (jwt tokenId refreshRand : String) (now : Nat)
    (c : String) (a : AuthCode)
    (hc : body.code = some c) (hcne : c ≠ "")
    (hru : jsFalsy body.redirect_uri = false) (hcv : jsFalsy body.code_verifier = false)
    (hci : jsFalsy clientId = false)
    (hfind : authCodeModel.findByCode codes c = some a)
    (hvalid : authCodeModel.isValid a now = true)
    (hclient : some a.client_id = clientId)
    (hredir : some a.redirect_uri = body.redirect_uri)
    (hpkce : verifyCodeChallenge (body.code_verifier.getD "") a.code_challenge
      a.code_challenge_method = true) :
    (jsFalsy a.freee_code = true →
      ∀ ex, handleAuthorizationCodeGrant codes tokens body clientId clientSecret ex
          jwt tokenId refreshRand now
        = (.err 400 "invalid_grant" "No freee authorization code available",
            authCodeModel.markAsUsed codes a.code, tokens))
    ∧ (jsFalsy a.freee_code = false →
        ∀ e, handleAuthorizationCodeGrant codes tokens body clientId clientSecret (.error e)
            jwt tokenId refreshRand now
          = (.err 400 "invalid_grant" "Failed to exchange authorization code with freee",
              authCodeModel.markAsUsed codes a.code, tokens))
    ∧ authCodeModel.findByCode (authCodeModel.markAsUsed codes a.code) c
        = some { a with used := 1 }
    ∧ (∀ tokens2 body2 clientId2 cs2 ex2 jwt2 tid2 rr2 now2,
        body2.code = some c →
        jsFalsy body2.redirect_uri = false →
        jsFalsy body2.code_verifier = false →
        jsFalsy clientId2 = false →
        (handleAuthorizationCodeGrant (authCodeModel.markAsUsed codes a.code) tokens2
            body2 clientId2 cs2 ex2 jwt2 tid2 rr2 now2).1
          = .err 400 "invalid_grant" "Authorization code has expired or already been used") := by
  have hcF : jsFalsy (some c) = false := by simp [jsFalsy, hcne]
  have h1 : (some a.client_id != clientId) = false := by simp [hclient]
  have h2 : (some a.redirect_uri != body.redirect_uri) = false := by simp [hredir]
  have hfind2 := authCodeModel.findByCode_markAsUsed hfind
  refine ⟨?_, ?_, hfind2, ?_⟩
  · intro hfc ex
    have hv : authGrantValidate codes body clientId now =
        (.fail (.err 400 "invalid_grant" "No freee authorization code available"),
          authCodeModel.markAsUsed codes a.code) := by
      simp [authGrantValidate, hcF, hru, hcv, hci, hc, hfind, hvalid, h1, h2, hpkce, hfc]
    simp [handleAuthorizationCodeGrant, hv]
  · intro hfc e
    have hv := authGrantValidate_proceed_eq hc hcne hru hcv hci hfind hvalid hclient hredir
      hpkce hfc
    simp [handleAuthorizationCodeGrant, hv, authGrantFinish]
  · intro tokens2 body2 clientId2 cs2 ex2 jwt2 tid2 rr2 now2 hc2 hru2 hcv2 hci2
    have hinv2 : authCodeModel.isValid { a with used := 1 } now2 = false := by
      simp [authCodeModel.isValid]
    have hv2 := authGrantValidate_invalid_eq hc2 hcne hru2 hcv2 hci2 hfind2 hinv2
    simp [handleAuthorizationCodeGrant, hv2]

/-- C8: when the stored upstream token is within the five-minute expiry
margin, the proactive refresh persists exactly the new upstream access token,
upstream refresh token and upstream expiry onto the same IssuedToken row: the
store keeps its length (no new IssuedToken), rows with other ids are
untouched, the updated row keeps every local field (id, client, local access
and refresh token, scope, timestamps, revocation flag), and the in-memory
token changes only its three upstream fields.  When no upstream refresh token
is stored, the call fails instead of proceeding with the stale token. -/
theorem c8_margin_refresh_updates_only_upstream_fields
    (token : Token) (tokens : TokenStore) (now : Nat) (e : Nat)
    (hexp : token.freee_token_expires_at = some e) (hmargin : e ≤ now + 300) :
    (jsFalsy token.freee_refresh_token = true →
      ∀ rr, FreeeClient.ensureValidToken token tokens now rr
        = .error "Cannot refresh freee token: no refresh token available")
    ∧ (∀ frt nt, token.freee_refresh_token = some frt → frt ≠ "" →
        FreeeClient.ensureValidToken token tokens now (.ok nt)
          = .ok
            { token with
                freee_access_token := nt.access_token,
                freee_refresh_token := some nt.refresh_token,
                freee_token_expires_at := some (nt.created_at + nt.expires_in) }
            (tokenModel.updateFreeeTokens tokens token.id nt.access_token
              (some nt.refresh_token) (some (nt.created_at + nt.expires_in)))
        ∧ (tokenModel.updateFreeeTokens tokens token.id nt.access_token
            (some nt.refresh_token) (some (nt.created_at + nt.expires_in))).length
            = tokens.length
        ∧ (∀ t ∈ tokens, t.id ≠ token.id →
            t ∈ tokenModel.updateFreeeTokens tokens token.id nt.access_token
              (some nt.refresh_token) (some (nt.created_at + nt.expires_in)))
        ∧ (∀ t ∈ tokens, t.id = token.id →
            { t with
                freee_access_token := nt.access_token,
                freee_refresh_token := some nt.refresh_token,
                freee_token_expires_at := some (nt.created_at + nt.expires_in) }
              ∈ tokenModel.updateFreeeTokens tokens token.id nt.access_token
                (some nt.refresh_token) (some (nt.created_at + nt.expires_in)))
        ∧ (∀ t1 ∈ tokenModel.updateFreeeTokens tokens token.id nt.access_token
              (some nt.refresh_token) (some (nt.created_at + nt.expires_in)),
            ∃ t0 ∈ tokens, t1.id = t0.id ∧ t1.client_id = t0.client_id
              ∧ t1.access_token = t0.access_token ∧ t1.refresh_token = t0.refresh_token
              ∧ t1.user_id = t0.user_id ∧ t1.company_id = t0.company_id
              ∧ t1.scope = t0.scope ∧ t1.created_at = t0.created_at
              ∧ t1.expires_at = t0.expires_at ∧ t1.revoked = t0.revoked)) := by
  have hstale : (match token.freee_token_expires_at with
      | none => false
      | some x => !(x == 0) && decide (x > now + 300)) = false := by
    rw [hexp]
    simp
    omega
  constructor
  · intro hfrt rr
    simp only [jsFalsy] at hfrt
    simp only [FreeeClient.ensureValidToken, hstale]
    rcases h : token.freee_refresh_token with _ | frt
    · simp
    · rw [h] at hfrt
      simp at hfrt
      simp [hfrt]
  · intro frt nt hfrt hfrtne
    refine ⟨?_, ?_, ?_, ?_, ?_⟩
    · simp only [FreeeClient.ensureValidToken, hstale, hfrt]
      simp [hfrtne]
    · simp [tokenModel.updateFreeeTokens]
    · intro t ht hne
      simp only [tokenModel.updateFreeeTokens, List.mem_map]
      refine ⟨t, ht, ?_⟩
      simp [hne]
    · intro t ht heq
      simp only [tokenModel.updateFreeeTokens, List.mem_map]
      refine ⟨t, ht, ?_⟩
      simp [heq]
    · intro t1 ht1
      simp only [tokenModel.updateFreeeTokens, List.mem_map] at ht1
      obtain ⟨t0, ht0, rfl⟩ := ht1
      by_cases h0 : t0.id = token.id
      · refine ⟨t0, ht0, ?_⟩
        simp [h0]
      · refine ⟨t0, ht0, ?_⟩
        simp [h0]

/-- C6 counterexample: an authorization request with an unsupported
`response_type` and an attacker-chosen `redirect_uri` is answered with a 302
redirect to that (completely unvalidated) redirect_uri carrying the error —
not with a direct JSON error body.  The same `redirectWithError` path handles
a missing `code_challenge`, an unsupported `code_challenge_method` and a
malformed `code_challenge`, so the claim that pre-trust validation errors are
never redirected is false on the code. -/
theorem c6_counterexample_pre_trust_error_redirects :
    handleAuthorize [] [] evilQuery "g1" 0
      = (.redirectErr "https://attacker.example/cb" "unsupported_response_type"
          "Only code response_type is supported" none, []) := by
  decide

/-- C6 amended: validation errors in the authorize handler split into two
families.  Missing `client_id`, missing `redirect_uri`, an unknown client and
an unregistered redirect_uri are returned as direct JSON error bodies.  An
unsupported `response_type`, a missing `code_challenge`, an unsupported
`code_challenge_method` and a malformed `code_challenge` are delivered by
redirecting to the supplied — not yet validated — redirect_uri whenever one is
present and parses as a URL; when it is absent or empty the error falls back
to a direct 400 JSON body, and when it is present but unparseable the `new
URL` throw is caught into the 500 `server_error` JSON body. -/
theorem c6_amended_error_propagation
    (clients : ClientStore) (codes : AuthCodeStore) (q : AuthorizeQuery)
    (genCode : String) (now : Nat) :
    (q.response_type ≠ some "code" → ∀ u p, q.redirect_uri = some u → u ≠ "" →
      parseURL u = some p →
      handleAuthorize clients codes q genCode now
        = (.redirectErr u "unsupported_response_type" "Only code response_type is supported"
            (jsOrNone q.state), codes))
    ∧ (q.response_type ≠ some "code" → ∀ u, q.redirect_uri = some u → u ≠ "" →
        parseURL u = none →
        handleAuthorize clients codes q genCode now
          = (.jsonErr 500 "server_error" "An unexpected error occurred", codes))
    ∧ (q.response_type ≠ some "code" → jsFalsy q.redirect_uri = true →
        handleAuthorize clients codes q genCode now
          = (.jsonErr 400 "unsupported_response_type" "Only code response_type is supported",
              codes))
    ∧ (q.response_type = some "code" → jsFalsy q.client_id = true →
        handleAuthorize clients codes q genCode now
          = (.jsonErr 400 "invalid_request" "client_id is required", codes))
    ∧ (q.response_type = some "code" → jsFalsy q.client_id = false →
        jsFalsy q.redirect_uri = true →
        handleAuthorize clients codes q genCode now
          = (.jsonErr 400 "invalid_request" "redirect_uri is required", codes))
    ∧ (q.response_type = some "code" → jsFalsy q.client_id = false →
        ∀ u p, q.redirect_uri = some u → u ≠ "" → parseURL u = some p →
        jsFalsy q.code_challenge = true →
        handleAuthorize clients codes q genCode now
          = (.redirectErr u "invalid_request" "code_challenge is required (PKCE)"
              (jsOrNone q.state), codes))
    ∧ (q.response_type = some "code" → jsFalsy q.client_id = false →
        ∀ u, q.redirect_uri = some u → u ≠ "" → parseURL u = none →
        jsFalsy q.code_challenge = true →
        handleAuthorize clients codes q genCode now
          = (.jsonErr 500 "server_error" "An unexpected error occurred", codes))
    ∧ (q.response_type = some "code" → jsFalsy q.client_id = false →
        ∀ u p, q.redirect_uri = some u → u ≠ "" → parseURL u = some p →
        jsFalsy q.code_challenge = false →
        jsOrElseStr q.code_challenge_method "S256" ≠ "S256" →
        handleAuthorize clients codes q genCode now
          = (.redirectErr u "invalid_request" "Only S256 code_challenge_method is supported"
              (jsOrNone q.state), codes))
    ∧ (q.response_type = some "code" → jsFalsy q.client_id = false →
        ∀ u, q.redirect_uri = some u → u ≠ "" → parseURL u = none →
        jsFalsy q.code_challenge = false →
        jsOrElseStr q.code_challenge_method "S256" ≠ "S256" →
        handleAuthorize clients codes q genCode now
          = (.jsonErr 500 "server_error" "An unexpected error occurred", codes))
    ∧ (q.response_type = some "code" → jsFalsy q.client_id = false →
        ∀ u p, q.redirect_uri = some u → u ≠ "" → parseURL u = some p →
        jsFalsy q.code_challenge = false →
        jsOrElseStr q.code_challenge_method "S256" = "S256" →
        isValidCodeChallenge (q.code_challenge.getD "") "S256" = false →
        handleAuthorize clients codes q genCode now
          = (.redirectErr u "invalid_request" "Invalid code_challenge format"
              (jsOrNone q.state), codes))
    ∧ (q.response_type = some "code" → jsFalsy q.client_id = false →
        ∀ u, q.redirect_uri = some u → u ≠ "" → parseURL u = none →
        jsFalsy q.code_challenge = false →
        jsOrElseStr q.code_challenge_method "S256" = "S256" →
        isValidCodeChallenge (q.code_challenge.getD "") "S256" = false →
        handleAuthorize clients codes q genCode now
          = (.jsonErr 500 "server_error" "An unexpected error occurred", codes))
    ∧ (q.response_type = some "code" → jsFalsy q.client_id = false →
        jsFalsy q.redirect_uri = false → jsFalsy q.code_challenge = false →
        jsOrElseStr q.code_challenge_method "S256" = "S256" →
        isValidCodeChallenge (q.code_challenge.getD "") "S256" = true →
        clientModel.findByClientId clients (q.client_id.getD "") = none →
        handleAuthorize clients codes q genCode now
          = (.jsonErr 400 "invalid_client" "Unknown client_id", codes))
    ∧ (q.response_type = some "code" → jsFalsy q.client_id = false →
        jsFalsy q.redirect_uri = false → jsFalsy q.code_challenge = false →
        jsOrElseStr q.code_challenge_method "S256" = "S256" →
        isValidCodeChallenge (q.code_challenge.getD "") "S256" = true →
        ∀ client, clientModel.findByClientId clients (q.client_id.getD "") = some client →
        clientModel.validateRedirectUri client (q.redirect_uri.getD "") = false →
        handleAuthorize clients codes q genCode now
          = (.jsonErr 400 "invalid_request" "redirect_uri does not match registered URIs",
              codes)) := by
  have h0 : jsFalsy (some "code") = false := by decide
  refine ⟨?_, ?_, ?_, ?_, ?_, ?_, ?_, ?_, ?_, ?_, ?_, ?_, ?_⟩
  · intro hrt u p hu hune hp
    have huF : jsFalsy (some u) = false := by simp [jsFalsy, hune]
    simp [handleAuthorize, redirectWithError, hrt, hu, huF, hp]
  · intro hrt u hu hune hp
    have huF : jsFalsy (some u) = false := by simp [jsFalsy, hune]
    simp [handleAuthorize, redirectWithError, hrt, hu, huF, hp]
  · intro hrt hru
    simp [handleAuthorize, redirectWithError, hrt, hru]
  · intro hrt hci
    simp [handleAuthorize, hrt, h0, hci]
  · intro hrt hci hru
    simp [handleAuthorize, hrt, h0, hci, hru]
  · intro hrt hci u p hu hune hp hcc
    have huF : jsFalsy (some u) = false := by simp [jsFalsy, hune]
    simp [handleAuthorize, redirectWithError, hrt, h0, hci, hu, huF, hp, hcc]
  · intro hrt hci u hu hune hp hcc
    have huF : jsFalsy (some u) = false := by simp [jsFalsy, hune]
    simp [handleAuthorize, redirectWithError, hrt, h0, hci, hu, huF, hp, hcc]
  · intro hrt hci u p hu hune hp hcc hm
    have huF : jsFalsy (some u) = false := by simp [jsFalsy, hune]
    simp [handleAuthorize, redirectWithError, hrt, h0, hci, hu, huF, hp, hcc, hm]
  · intro hrt hci u hu hune hp hcc hm
    have huF : jsFalsy (some u) = false := by simp [jsFalsy, hune]
    simp [handleAuthorize, redirectWithError, hrt, h0, hci, hu, huF, hp, hcc, hm]
  · intro hrt hci u p hu hune hp hcc hm hval
    have huF : jsFalsy (some u) = false := by simp [jsFalsy, hune]
    simp [handleAuthorize, redirectWithError, hrt, h0, hci, hu, huF, hp, hcc, hm, hval]
  · intro hrt hci u hu hune hp hcc hm hval
    have huF : jsFalsy (some u) = false := by simp [jsFalsy, hune]
    simp [handleAuthorize, redirectWithError, hrt, h0, hci, hu, huF, hp, hcc, hm, hval]
  · intro hrt hci hru hcc hm hval hfindc
    simp [handleAuthorize, hrt, h0, hci, hru, hcc, hm, hval, hfindc]
  · intro hrt hci hru hcc hm hval client hfindc hreg
    simp [handleAuthorize, hrt, h0, hci, hru, hcc, hm, hval, hfindc, hreg]

/-- C7 counterexample: registering a redirect URI that is plain HTTP on the
non-loopback hostname `localhost.evil.example` succeeds with 201, because the
HTTPS exemption tests `hostname.includes('localhost')` — substring
containment — rather than an exact loopback match.  The claim that any
non-HTTPS, non-loopback URI is rejected with `invalid_redirect_uri` is
therefore false on the code. -/
theorem c7_counterexample_substring_localhost_accepted :
    handleRegister [] sneakyDCR "i1" "cid1" "sec1" 0 = (.created sneakyClient, [sneakyClient]) := by
  decide

/-- A URI list containing a bad entry (unparseable, or non-HTTPS with a
hostname that neither contains `localhost` nor equals `127.0.0.1`) makes the
registration URI scan stop with an `invalid_redirect_uri` error. -/
theorem checkRedirectUris_rejects {uris : List String}
    (h : ∃ uri ∈ uris, parseURL uri = none
      ∨ ∃ u, parseURL uri = some u ∧ u.protocol ≠ "https:"
          ∧ containsSub u.hostname "localhost" = false ∧ u.hostname ≠ "127.0.0.1") :
    ∃ d, checkRedirectUris uris = some (.err 400 "invalid_redirect_uri" d) := by
  induction uris with
  | nil => simp at h
  | cons uri rest ih =>
    rcases h with ⟨x, hx, hbad⟩
    rcases List.mem_cons.mp hx with rfl | hxrest
    · rcases hbad with hnone | ⟨u, hu, hproto, hsub, hhost⟩
      · exact ⟨"Invalid redirect URI format: " ++ x, by simp [checkRedirectUris, hnone]⟩
      · have hcond : (u.protocol != "https:" && !(containsSub u.hostname "localhost") &&
            u.hostname != "127.0.0.1") = true := by
          simp [hproto, hsub, hhost]
        exact ⟨"Redirect URI must use HTTPS: " ++ x, by simp [checkRedirectUris, hu, hcond]⟩
    · rcases hp : parseURL uri with _ | u
      · exact ⟨"Invalid redirect URI format: " ++ uri, by simp [checkRedirectUris, hp]⟩
      · by_cases hcond : (u.protocol != "https:" && !(containsSub u.hostname "localhost") &&
            u.hostname != "127.0.0.1") = true
        · exact ⟨"Redirect URI must use HTTPS: " ++ uri, by simp [checkRedirectUris, hp, hcond]⟩
        · obtain ⟨d, hd⟩ := ih ⟨x, hxrest, hbad⟩
          refine ⟨d, ?_⟩
          simp only [Bool.not_eq_true] at hcond
          simp [checkRedirectUris, hp, hcond, hd]

/-- A URI list in which every entry parses and is HTTPS, or has a hostname
containing `localhost` or equal to `127.0.0.1`, passes the registration URI
scan. -/
theorem checkRedirectUris_accepts {uris : List String}
    (h : ∀ uri ∈ uris, ∃ u, parseURL uri = some u
      ∧ (u.protocol = "https:" ∨ containsSub u.hostname "localhost" = true
          ∨ u.hostname = "127.0.0.1")) :
    checkRedirectUris uris = none := by
  induction uris with
  | nil => simp [checkRedirectUris]
  | cons uri rest ih =>
    obtain ⟨u, hu, hok⟩ := h uri (List.mem_cons_self uri rest)
    have hcond : (u.protocol != "https:" && !(containsSub u.hostname "localhost") &&
        u.hostname != "127.0.0.1") = false := by
      rcases hok with hp | hs | hh
      · simp [hp]
      · simp [hs]
      · simp [hh]
    have hrest := ih (fun x hx => h x (List.mem_cons_of_mem uri hx))
    simp [checkRedirectUris, hu, hcond, hrest]

/-- C7 amended: a missing or empty `redirect_uris` list is rejected with
`invalid_client_metadata`; any redirect URI that fails to parse, or is not
HTTPS while its hostname neither contains the substring `localhost` nor
equals `127.0.0.1`, is rejected with `invalid_redirect_uri`; and every URI
that is HTTPS, or whose hostname contains the substring `localhost` or equals
`127.0.0.1`, is exempt — the request is never rejected with
`invalid_redirect_uri`.  (The code exempts substring matches such as
`localhost.evil.example`, not only loopback hostnames.) -/
theorem c7_amended_registration_validation
    (clients : ClientStore) (body : DCRRequest) (id clientId clientSecret : String)
    (now : Nat) :
    (body.redirect_uris = none →
      handleRegister clients body id clientId clientSecret now
        = (.err 400 "invalid_client_metadata"
            "redirect_uris is required and must be a non-empty array", clients))
    ∧ (body.redirect_uris = some [] →
        handleRegister clients body id clientId clientSecret now
          = (.err 400 "invalid_client_metadata"
              "redirect_uris is required and must be a non-empty array", clients))
    ∧ (∀ uris, body.redirect_uris = some uris →
        (∃ uri ∈ uris, parseURL uri = none
          ∨ ∃ u, parseURL uri = some u ∧ u.protocol ≠ "https:"
              ∧ containsSub u.hostname "localhost" = false ∧ u.hostname ≠ "127.0.0.1") →
        ∃ d, handleRegister clients body id clientId clientSecret now
          = (.err 400 "invalid_redirect_uri" d, clients))
    ∧ (∀ uris, body.redirect_uris = some uris →
        (∀ uri ∈ uris, ∃ u, parseURL uri = some u
          ∧ (u.protocol = "https:" ∨ containsSub u.hostname "localhost" = true
              ∨ u.hostname = "127.0.0.1")) →
        ∀ d, (handleRegister clients body id clientId clientSecret now).1
          ≠ .err 400 "invalid_redirect_uri" d) := by
  refine ⟨?_, ?_, ?_, ?_⟩
  · intro hnone
    simp [handleRegister, hnone]
  · intro hnil
    simp [handleRegister, hnil]
  · intro uris huris hbad
    obtain ⟨d, hd⟩ := checkRedirectUris_rejects hbad
    have hne : uris.isEmpty = false := by
      rcases hbad with ⟨x, hx, _⟩
      rcases uris with _ | _
      · simp at hx
      · simp
    exact ⟨d, by simp [handleRegister, huris, hne, hd]⟩
  · intro uris huris hgood d
    have hnone := checkRedirectUris_accepts hgood
    rcases he : uris.isEmpty with _ | _
    · simp only [handleRegister, huris, he]
      rcases h1 : firstUnsupported allowedGrantTypes (body.grant_types.getD ["authorization_code"])
        with _ | g
      · rcases h2 : firstUnsupported allowedResponseTypes (body.response_types.getD ["code"])
          with _ | r
        · simp [hnone, h1, h2]
        · simp [hnone, h1, h2]
      · simp [hnone, h1]
    · simp [handleRegister, huris, he]

/-! ### Concurrency: racing authorization_code exchanges on one session -/

/-- Setting an index to the value it already holds leaves the list unchanged. -/
theorem List.set_same {α : Type} : ∀ (l : List α) (i : Nat) (v : α),
    l[i]? = some v → l.set i v = l
  | [], _, _, h => by simp at h
  | x :: xs, 0, v, h => by
    simp at h
    simp [h]
  | x :: xs, n + 1, v, h => by
    simp at h
    simpa [List.set] using List.set_same xs n v h

/-- One scheduled stage never changes the number of in-flight requests. -/
theorem concStep_phases_length (now : Nat) (s : ConcState) (i : Nat) :
    (concStep now s i).phases.length = s.phases.length := by
  rcases h : s.phases[i]? with _ | ⟨req, ph⟩
  · simp [concStep, h]
  · cases ph with
    | pending =>
      rcases hv : authGrantValidate s.codes req.body req.clientId now with ⟨st, codes1⟩
      cases st <;> simp [concStep, h, hv]
    | awaitingUpstream a =>
      rcases hf : authGrantFinish s.tokens a (req.clientId.getD "") req.exchangeResult
          req.jwt req.tokenId req.refreshRand now with ⟨r, tokens1⟩
      simp [concStep, h, hf]
    | done r => simp [concStep, h]

/-- One scheduled stage preserves the race invariant: the first pending
request to run consumes the session and becomes the unique winner; every
pending request that runs after it finds `used = 1` and fails with the
used-code `invalid_grant`; the winner's second stage completes successfully
given its succeeding upstream exchange. -/
theorem concStep_preserves_inv
    {a : AuthCode} {reqs : List ConcReq} {s : ConcState} (now i : Nat)
    (hane : a.code ≠ "") (hexp : now < a.expires_at)
    (hfc : jsFalsy a.freee_code = false) (hused : a.used = 0)
    (hgood : ∀ r ∈ reqs, ReqGood a r)
    (hinv : ConcInv a reqs s) : ConcInv a reqs (concStep now s i) := by
  obtain ⟨hfst, hcase⟩ := hinv
  rcases h : s.phases[i]? with _ | ⟨req, ph⟩
  · simpa [concStep, h] using ⟨hfst, hcase⟩
  · obtain ⟨hi, -⟩ := List.getElem?_eq_some.mp h
    have hreqmem : req ∈ reqs := by
      have h1 : (req, ph) ∈ s.phases := List.getElem?_mem h
      have h2 : req ∈ s.phases.map Prod.fst := List.mem_map_of_mem Prod.fst h1
      rwa [hfst] at h2
    obtain ⟨hbc, hbr, hbv, hbci, hbcl, hbru, hbpk, hbex⟩ := hgood req hreqmem
    have hsetfst : ∀ p : ReqPhase, (s.phases.set i (req, p)).map Prod.fst = reqs := by
      intro p
      rw [List.map_set]
      have hmf : (s.phases.map Prod.fst)[i]? = some req := by
        rw [List.getElem?_map, h]
        rfl
      rw [List.set_same _ _ _ hmf]
      exact hfst
    cases ph with
    | pending =>
      rcases hcase with ⟨hfind, hall⟩ | ⟨hfind, w, hw, hwin, hoth⟩
      · -- the session is untouched: this request wins
        have hvalid : authCodeModel.isValid a now = true := by
          simp [authCodeModel.isValid, hused]
          omega
        have hv := authGrantValidate_proceed_eq hbc hane hbr hbv hbci hfind hvalid hbcl
          hbru hbpk hfc
        refine ⟨?_, Or.inr ?_⟩
        · simpa [concStep, h, hv] using hsetfst (ReqPhase.awaitingUpstream a)
        · simp only [concStep, h, hv]
          refine ⟨authCodeModel.findByCode_markAsUsed hfind, i, ?_, ?_, ?_⟩
          · simpa [List.length_set] using hi
          · left
            rw [List.getElem?_set_self (by simpa [List.length_set] using hi)]
            rfl
          · intro j hj hji
            left
            rw [List.getElem?_set_ne (fun hij => hji hij.symm)]
            have hj' : j < s.phases.length := by simpa [List.length_set] using hj
            rw [List.getElem?_eq_getElem hj']
            have := hall _ (List.getElem_mem hj')
            simp [this]
      · -- a winner already consumed the session: this request loses
        have hiw : i ≠ w := by
          intro hie
          subst hie
          rcases hwin with hwaw | ⟨res, hres, -⟩
          · rw [h] at hwaw
            simp at hwaw
          · rw [h] at hres
            simp at hres
        have hinv2 : authCodeModel.isValid { a with used := 1 } now = false := by
          simp [authCodeModel.isValid]
        have hv := authGrantValidate_invalid_eq hbc hane hbr hbv hbci hfind hinv2
        refine ⟨?_, Or.inr ?_⟩
        · simpa [concStep, h, hv] using hsetfst (ReqPhase.done (.err 400 "invalid_grant"
            "Authorization code has expired or already been used"))
        · simp only [concStep, h, hv]
          refine ⟨hfind, w, by simpa [List.length_set] using hw, ?_, ?_⟩
          · rw [List.getElem?_set_ne hiw]
            exact hwin
          · intro j hj hjw
            by_cases hji : j = i
            · subst hji
              right
              rw [List.getElem?_set_self (by simpa [List.length_set] using hi)]
              rfl
            · rw [List.getElem?_set_ne (fun hij => hji hij.symm)]
              exact hoth j (by simpa [List.length_set] using hj) hjw
    | awaitingUpstream a' =>
      rcases hcase with ⟨hfind, hall⟩ | ⟨hfind, w, hw, hwin, hoth⟩
      · have := hall _ (List.getElem?_mem h)
        simp at this
      · have hiw : i = w := by
          by_contra hne
          rcases hoth i hi hne with hp | hd
          · rw [h] at hp
            simp at hp
          · rw [h] at hd
            simp at hd
        subst hiw
        have ha' : a' = a := by
          rcases hwin with hwaw | ⟨res, hres, -⟩
          · rw [h] at hwaw
            simpa using hwaw
          · rw [h] at hres
            simp at hres
        rw [ha'] at h
        rcases hex : req.exchangeResult with e | ft
        · rw [hex] at hbex
          simp [exceptOk] at hbex
        · have hfin : authGrantFinish s.tokens a (req.clientId.getD "") (.ok ft)
              req.jwt req.tokenId req.refreshRand now
            = ((.ok req.jwt "Bearer" 3600
                  (jsOrNone (some (jsOrElseStr none req.refreshRand))) (jsOrNone a.scope)),
                s.tokens ++ [tokenModel.create
                  { client_id := req.clientId.getD "", user_id := jsOrNone a.user_id,
                    company_id := jsOrNoneInt a.company_id, access_token := req.jwt,
                    refresh_token := none, freee_access_token := ft.access_token,
                    freee_refresh_token := some ft.refresh_token,
                    freee_token_expires_at := some (ft.created_at + ft.expires_in),
                    scope := jsOrNone a.scope, expires_in := 3600 }
                  req.tokenId req.refreshRand now]) := by
            simp [authGrantFinish, tokenModel.create]
          refine ⟨?_, Or.inr ?_⟩
          · simpa [concStep, h, hex, hfin] using hsetfst (ReqPhase.done (.ok req.jwt "Bearer"
              3600 (jsOrNone (some (jsOrElseStr none req.refreshRand))) (jsOrNone a.scope)))
          · simp only [concStep, h, hex, hfin]
            refine ⟨hfind, i, ?_, ?_, ?_⟩
            · simpa [List.length_set] using hi
            · right
              refine ⟨TokenResult.ok req.jwt "Bearer" 3600
                  (jsOrNone (some (jsOrElseStr none req.refreshRand))) (jsOrNone a.scope),
                ?_, rfl⟩
              rw [List.getElem?_set_self (by simpa [List.length_set] using hi)]
              rfl
            · intro j hj hji
              rw [List.getElem?_set_ne (fun hij => hji hij.symm)]
              exact hoth j (by simpa [List.length_set] using hj) hji
    | done r =>
      simpa [concStep, h] using ⟨hfst, hcase⟩

/-- A whole schedule preserves the race invariant. -/
theorem concRun_preserves_inv
    {a : AuthCode} {reqs : List ConcReq} (now : Nat)
    (hane : a.code ≠ "") (hexp : now < a.expires_at)
    (hfc : jsFalsy a.freee_code = false) (hused : a.used = 0)
    (hgood : ∀ r ∈ reqs, ReqGood a r) :
    ∀ (σ : List Nat) (s : ConcState), ConcInv a reqs s → ConcInv a reqs (concRun now s σ)
  | [], s, hinv => hinv
  | i :: rest, s, hinv =>
    concRun_preserves_inv now hane hexp hfc hused hgood rest (concStep now s i)
      (concStep_preserves_inv now i hane hexp hfc hused hgood hinv)

/-- C3: for every set of concurrent authorization_code exchanges racing on
one valid session — each presenting the session's code with all required
parameters, the session's client and redirect_uri, a verifying PKCE verifier
and a succeeding upstream exchange — and every schedule under Node's
event-loop interleaving that lets every request finish, exactly one request
ends with the 200 token response and every other request ends with
`invalid_grant`: the read of the `used` flag and `markAsUsed` run inside one
synchronous (hence atomic) stage, so only the first scheduled request can
pass the validity check. -/
theorem c3_concurrent_redemption_single_success
    (codes : AuthCodeStore) (tokens : TokenStore) (reqs : List ConcReq)
    (now : Nat) (a : AuthCode) (σ : List Nat)
    (hfind : authCodeModel.findByCode codes a.code = some a)
    (hane : a.code ≠ "") (hused : a.used = 0) (hexp : now < a.expires_at)
    (hfc : jsFalsy a.freee_code = false)
    (hgood : ∀ r ∈ reqs, ReqGood a r)
    (hne : reqs ≠ [])
    (hdone : ∀ rp ∈ (concRun now (initConcState codes tokens reqs) σ).phases,
        rp.2.isDone = true) :
    ∃ w, w < (concRun now (initConcState codes tokens reqs) σ).phases.length
      ∧ (∃ req res,
          (concRun now (initConcState codes tokens reqs) σ).phases[w]?
            = some (req, ReqPhase.done res) ∧ res.isOk = true)
      ∧ ∀ j, j < (concRun now (initConcState codes tokens reqs) σ).phases.length → j ≠ w →
          ∃ req, (concRun now (initConcState codes tokens reqs) σ).phases[j]?
            = some (req, ReqPhase.done (.err 400 "invalid_grant"
                "Authorization code has expired or already been used")) := by
  have hinit : ConcInv a reqs (initConcState codes tokens reqs) := by
    have hcomp : (Prod.fst ∘ fun r : ConcReq => (r, ReqPhase.pending)) = id := by
      funext r
      rfl
    refine ⟨?_, Or.inl ⟨by simpa [initConcState] using hfind, ?_⟩⟩
    · simp only [initConcState, List.map_map, hcomp, List.map_id]
    intro rp hrp
    simp only [initConcState, List.mem_map] at hrp
    obtain ⟨r, -, rfl⟩ := hrp
    rfl
  have hfin := concRun_preserves_inv now hane hexp hfc hused hgood σ _ hinit
  obtain ⟨hfst, hcase⟩ := hfin
  rcases hcase with ⟨-, hall⟩ | ⟨-, w, hw, hwin, hoth⟩
  · -- everything still pending contradicts the schedule finishing all requests
    exfalso
    have hnil : (concRun now (initConcState codes tokens reqs) σ).phases ≠ [] := by
      intro hcontra
      rw [hcontra] at hfst
      exact hne hfst.symm
    obtain ⟨rp, hrp⟩ := List.exists_mem_of_ne_nil _ hnil
    have h1 := hall rp hrp
    have h2 := hdone rp hrp
    rw [h1] at h2
    simp [ReqPhase.isDone] at h2
  · refine ⟨w, hw, ?_, ?_⟩
    · rcases hq : (concRun now (initConcState codes tokens reqs) σ).phases[w]?
        with _ | ⟨req, phw⟩
      · rw [hq] at hwin
        rcases hwin with hwaw | ⟨res, hres, -⟩
        · simp at hwaw
        · simp at hres
      · have hmem := List.getElem?_mem hq
        have hdw := hdone _ hmem
        rcases hwin with hwaw | ⟨res, hres, hok⟩
        · rw [hq] at hwaw
          simp at hwaw
          rw [hwaw] at hdw
          simp [ReqPhase.isDone] at hdw
        · rw [hq] at hres
          simp at hres
          subst hres
          exact ⟨req, res, rfl, hok⟩
    · intro j hj hjw
      rcases hq : (concRun now (initConcState codes tokens reqs) σ).phases[j]?
        with _ | ⟨req, phj⟩
      · exfalso
        rw [List.getElem?_eq_getElem hj] at hq
        simp at hq
      · have hmem := List.getElem?_mem hq
        have hdj := hdone _ hmem
        rcases hoth j hj hjw with hp | hd
        · rw [hq] at hp
          simp at hp
          rw [hp] at hdj
          simp [ReqPhase.isDone] at hdj
        · rw [hq] at hd
          simp at hd
          subst hd
          exact ⟨req, rfl⟩

/-! ### PKCE round-trip facts (supporting development)

The S256 mutation half of the PKCE property is exactly collision resistance
of SHA-256 under single-character edits, which is neither provable nor
refutable for the concrete function; the halves below are the provable
parts. -/

/-- A challenge computed from a verifier always verifies against it, for both
supported methods. -/
theorem verifyCodeChallenge_roundtrip (v : String) :
    verifyCodeChallenge v (computeS256Challenge v) "S256" = true
    ∧ verifyCodeChallenge v v "plain" = true := by
  constructor <;> simp [verifyCodeChallenge]

/-- Under the plain method, any different verifier — in particular any
single-character mutation — fails verification. -/
theorem verifyCodeChallenge_plain_mutation {v w : String} (h : w ≠ v) :
    verifyCodeChallenge w v "plain" = false := by
  simp [verifyCodeChallenge, h]

/-- Unsupported methods always fail verification. -/
theorem verifyCodeChallenge_unknown_method (v c m : String)
    (h1 : m ≠ "plain") (h2 : m ≠ "S256") : verifyCodeChallenge v c m = false := by
  simp [verifyCodeChallenge, h1, h2]

/-! ### Witness instantiations -/

/-- C2 witness: on a concrete store the exchange succeeds once, consumes the
session, and the retry of the same code answers `invalid_grant`. -/
theorem c2_session_single_use_and_ttl_witness :
    (handleAuthorizationCodeGrant [sampleSession] [] authBody (some "c1") none
        (.ok sampleFreee) "jwt" "t9" "r9" 10).1.isOk = true
    ∧ (handleAuthorizationCodeGrant [sampleSession] [] authBody (some "c1") none
        (.ok sampleFreee) "jwt" "t9" "r9" 10).2.1
      = authCodeModel.markAsUsed [sampleSession] sampleSession.code
    ∧ (handleAuthorizationCodeGrant (authCodeModel.markAsUsed [sampleSession] sampleSession.code)
        [] authBody (some "c1") none (.ok sampleFreee) "j2" "t2" "r2" 700).1
      = .err 400 "invalid_grant" "Authorization code has expired or already been used" := by
  obtain ⟨h1, h2, h3⟩ := (c2_session_single_use_and_ttl [sampleSession] [] authBody
      (some "c1") none (.ok sampleFreee) "jwt" "t9" "r9" 10 "code1" sampleSession
      rfl (by decide) (by decide) (by decide) (by decide) (by decide)).2.1
    (by decide) (by decide) (by decide) (by decide) (by decide) sampleFreee rfl
  exact ⟨h1, h2, h3 [] authBody (some "c1") none (.ok sampleFreee) "j2" "t2" "r2" 700
    rfl (by decide) (by decide) (by decide)⟩

/-- C3 witness: two concrete requests racing on `sampleSession` under the
schedule 0, 1, 0, 1 finish with exactly one success. -/
theorem c3_concurrent_redemption_single_success_witness :
    ∃ w, w < (concRun 10 (initConcState [sampleSession] [] [concReqA, concReqB])
        [0, 1, 0, 1]).phases.length
      ∧ (∃ req res,
          (concRun 10 (initConcState [sampleSession] [] [concReqA, concReqB])
              [0, 1, 0, 1]).phases[w]?
            = some (req, ReqPhase.done res) ∧ res.isOk = true)
      ∧ ∀ j, j < (concRun 10 (initConcState [sampleSession] [] [concReqA, concReqB])
            [0, 1, 0, 1]).phases.length → j ≠ w →
          ∃ req, (concRun 10 (initConcState [sampleSession] [] [concReqA, concReqB])
              [0, 1, 0, 1]).phases[j]?
            = some (req, ReqPhase.done (.err 400 "invalid_grant"
                "Authorization code has expired or already been used")) :=
  c3_concurrent_redemption_single_success [sampleSession] [] [concReqA, concReqB] 10
    sampleSession [0, 1, 0, 1] (by decide) (by decide) (by decide) (by decide) (by decide)
    (by decide) (by decide) (by decide)

/-- C4 witness: a concrete refresh succeeds, the old refresh token stops
resolving, and its reuse answers `invalid_grant`. -/
theorem c4_refresh_rotation_single_live_witness :
    (handleRefreshTokenGrant [sampleToken] refreshBody (some "c1") none (.ok sampleFreee)
        "jwt2" "t2" "r2" 100).1
      = .ok "jwt2" "Bearer" 3600 (some "r2") (jsOrNone sampleToken.scope)
    ∧ tokenModel.findByRefreshToken
        (handleRefreshTokenGrant [sampleToken] refreshBody (some "c1") none (.ok sampleFreee)
          "jwt2" "t2" "r2" 100).2 "r1" = none
    ∧ handleRefreshTokenGrant
        (handleRefreshTokenGrant [sampleToken] refreshBody (some "c1") none (.ok sampleFreee)
          "jwt2" "t2" "r2" 100).2
        refreshBody (some "c9") none (.error "boom") "j" "t" "r" 0
      = (.err 400 "invalid_grant" "Invalid refresh token",
          (handleRefreshTokenGrant [sampleToken] refreshBody (some "c1") none (.ok sampleFreee)
            "jwt2" "t2" "r2" 100).2) := by
  have h := c4_refresh_rotation_single_live [sampleToken] refreshBody (some "c1") none
    sampleFreee "jwt2" "t2" "r2" 100 "r1" "c1" sampleToken
    rfl (by decide) rfl (by decide) (by decide) rfl (by decide) (by decide) (by decide)
    (by decide) (by decide) _ rfl
  exact ⟨h.1, h.2.2.1, h.2.2.2.1 refreshBody (some "c9") none (.error "boom") "j" "t" "r" 0
    rfl (by decide)⟩

/-- C5 witness: a concrete refresh whose upstream call fails revokes the found
token and answers `invalid_grant`. -/
theorem c5_upstream_failure_fail_closed_witness :
    handleRefreshTokenGrant [sampleToken] refreshBody (some "c1") none (.error "boom")
        "jwt" "t2" "r2" 50
      = (.err 400 "invalid_grant" "Failed to refresh freee token",
          tokenModel.revoke [sampleToken] sampleToken.id) :=
  (c5_upstream_failure_fail_closed [sampleToken] refreshBody (some "c1") none "boom"
    "jwt" "t2" "r2" 50 "r1" "c1" sampleToken
    rfl (by decide) rfl (by decide) (by decide) rfl (by decide)).1

/-- C6 witness for the amended propagation policy: the unsupported
response_type error is redirected to the supplied redirect_uri. -/
theorem c6_amended_error_propagation_witness :
    handleAuthorize [] [] evilQuery "g1" 0
      = (.redirectErr "https://attacker.example/cb" "unsupported_response_type"
          "Only code response_type is supported" (jsOrNone evilQuery.state), []) :=
  (c6_amended_error_propagation [] [] evilQuery "g1" 0).1 (by decide)
    "https://attacker.example/cb" ⟨"https:", "attacker.example"⟩ rfl (by decide) (by decide)

/-- C7 witness for the amended registration validation: a missing
`redirect_uris` list is rejected with `invalid_client_metadata`. -/
theorem c7_amended_registration_validation_witness :
    handleRegister [] emptyDCR "i" "c" "s" 0
      = (.err 400 "invalid_client_metadata"
          "redirect_uris is required and must be a non-empty array", []) :=
  (c7_amended_registration_validation [] emptyDCR "i" "c" "s" 0).1 rfl

/-- C8 witness: a concrete in-margin token is refreshed in place. -/
theorem c8_margin_refresh_updates_only_upstream_fields_witness :
    FreeeClient.ensureValidToken sampleToken [sampleToken] 900 (.ok sampleFreee)
      = .ok
        { sampleToken with
            freee_access_token := sampleFreee.access_token,
            freee_refresh_token := some sampleFreee.refresh_token,
            freee_token_expires_at := some (sampleFreee.created_at + sampleFreee.expires_in) }
        (tokenModel.updateFreeeTokens [sampleToken] sampleToken.id sampleFreee.access_token
          (some sampleFreee.refresh_token)
          (some (sampleFreee.created_at + sampleFreee.expires_in)))
    ∧ (tokenModel.updateFreeeTokens [sampleToken] sampleToken.id sampleFreee.access_token
        (some sampleFreee.refresh_token)
        (some (sampleFreee.created_at + sampleFreee.expires_in))).length
      = [sampleToken].length := by
  have h := (c8_margin_refresh_updates_only_upstream_fields sampleToken [sampleToken] 900 1000
    rfl (by decide)).2 "fr1" sampleFreee rfl (by decide)
  exact ⟨h.1, h.2.1⟩

/-- C10 witness: on a concrete store the upstream-exchange failure leaves the
session consumed and the retry answers `invalid_grant`. -/
theorem c10_session_consumed_on_upstream_failure_witness :
    handleAuthorizationCodeGrant [sampleSession] [] authBody (some "c1") none (.error "boom")
        "jwt" "t9" "r9" 10
      = (.err 400 "invalid_grant" "Failed to exchange authorization code with freee",
          authCodeModel.markAsUsed [sampleSession] sampleSession.code, [])
    ∧ authCodeModel.findByCode (authCodeModel.markAsUsed [sampleSession] sampleSession.code)
        "code1" = some { sampleSession with used := 1 } := by
  have h := c10_session_consumed_on_upstream_failure [sampleSession] [] authBody
    (some "c1") none "jwt" "t9" "r9" 10 "code1" sampleSession
    rfl (by decide) (by decide) (by decide) (by decide) (by decide) (by decide)
    (by decide) (by decide) (by decide)
  exact ⟨h.2.1 (by decide) "boom", h.2.2.1⟩
